import Mathlib

/-!
Verification development for the Shaper Origin dovetail Inkscape extension.

This file gives a shallow embedding of `shaper_origin_dovetails.py`
(together with the small pieces of `shaper_origin_base.py` it uses) and
proves properties of the embedded program.  Lengths and angles are modelled
as real numbers (the Python code computes with floats); `math.radians` and
`math.tan` become multiplication by `π / 180` and `Real.tan`.  The mutable
attributes that `__calc_and_check_parameters` stores on `self` become the
record `ResolvedGeometry`; the method itself, which returns an error
message or `None` (and can raise `AssertionError` or `ZeroDivisionError`),
becomes a total function into `CheckResult`.  The drawing methods, which
append SVG elements to the current layer, become functions returning lists
of abstract `CutShape` values.
-/

open Real

/- Module level constants of `shaper_origin_dovetails.py`. -/

/-- Source constant `__OVERCUTTING_BUFFER_FACTOR__`. -/
def OVERCUTTING_BUFFER_FACTOR : ℝ := 0.55

/-- Source constant `__LOWER_OVERCUTTING_BUFFER_DOVETAIL_BIT_FACTOR__`. -/
def LOWER_OVERCUTTING_BUFFER_DOVETAIL_BIT_FACTOR : ℝ := 1.0

/-- Source constant `__HORIZONTAL_BUFFER__`. -/
def HORIZONTAL_BUFFER : ℝ := 2

/-- Source constant `__FONT_SIZE__`. -/
def FONT_SIZE : ℝ := 4

/-- Source constant `__LINE_HEIGHT__`. -/
def LINE_HEIGHT : ℝ := FONT_SIZE * 1.6

/-- Source constant `__VERTICAL_OFFSET_BOARDS__`. -/
def VERTICAL_OFFSET_BOARDS : ℝ := 50

/-- The options record built by `add_arguments`: one field per
`pars.add_argument` call, in source order.  `num_tails` is a Python `int`,
hence `ℤ`; every other option is a float, modelled as `ℝ`. -/
structure JointParameters where
  cut_angle : ℝ
  tail_bit_diameter : ℝ
  pin_bit_diameter : ℝ
  tail_thickness : ℝ
  pin_thickness : ℝ
  width : ℝ
  width_tails : ℝ
  num_tails : ℤ

/-- Python `math.radians`. -/
noncomputable def radians (deg : ℝ) : ℝ := deg * Real.pi / 180

/-- Assignment `self.tan_cut_angle = tan(radians(self.options.cut_angle))`
(line 257 of the source). -/
noncomputable def tan_cut_angle (p : JointParameters) : ℝ :=
  Real.tan (radians p.cut_angle)

/-- Assignment `self.is_odd_number_of_tails = self.options.num_tails % 2 == 1`
(line 258).  Python `%` on ints with a positive modulus agrees with
`Int.emod`. -/
def is_odd_number_of_tails (p : JointParameters) : Bool :=
  p.num_tails % 2 == 1

/-- Method `calculate_upper_tail_diameter` (lines 85-98). -/
noncomputable def calculate_upper_tail_diameter (p : JointParameters) : ℝ :=
  p.tail_bit_diameter - 2 * tan_cut_angle p * p.pin_thickness

/-- Method `num_tail_cuts` (lines 101-102). -/
def num_tail_cuts (p : JointParameters) : ℤ :=
  if is_odd_number_of_tails p then p.num_tails + 1 else p.num_tails

/-- Attribute `self.smaller_width_tails` as assigned on lines 279-280. -/
noncomputable def smaller_width_tails (p : JointParameters) : ℝ :=
  p.width_tails - (p.tail_bit_diameter - calculate_upper_tail_diameter p)

/-- Local variable `cumulative_tail_width` of line 297. -/
noncomputable def cumulative_tail_width (p : JointParameters) : ℝ :=
  (num_tail_cuts p : ℝ) * p.width_tails

/-- Attribute `self.individual_width_of_tail_cut` as assigned on lines 314-315
(the identical reassignment on lines 319-320 is dead code). -/
noncomputable def individual_width_of_tail_cut (p : JointParameters) : ℝ :=
  (p.width - cumulative_tail_width p) / (num_tail_cuts p : ℝ)

/-- The attributes `__calc_and_check_parameters` computes and stores on
`self` for the layout methods to consume. -/
structure ResolvedGeometry where
  tan_cut_angle : ℝ
  is_odd_number_of_tails : Bool
  upper_tail_diameter : ℝ
  smaller_width_tails : ℝ
  individual_width_of_tail_cut : ℝ

/-- The four user facing error messages `__calc_and_check_parameters` may
return, one constructor per `return` of a message, in source order. -/
inductive ValidationFailure
  | DiameterNonPositive
  | TailNarrowerThanPinBit
  | TailsExceedBoardWidth
  | InterTailCutTooNarrow
deriving DecidableEq

/-- Possible outcomes of `__calc_and_check_parameters`: a returned error
message, a raised `AssertionError` (line 313), a raised
`ZeroDivisionError` (the division on lines 314-315 when
`num_tail_cuts()` is `0`), or a normal return of `None` with all derived
attributes stored on `self`. -/
inductive CheckResult
  | failure (f : ValidationFailure)
  | assertionError
  | zeroDivisionError
  | ok (g : ResolvedGeometry)

/-- Method `__calc_and_check_parameters` (lines 254-331): the guards appear
in source order; the `assertionError` and `zeroDivisionError` branches
model the `assert` and the division on the lines in between the third and
fourth guard. -/
noncomputable def calc_and_check_parameters (p : JointParameters) : CheckResult :=
  if calculate_upper_tail_diameter p ≤ 0 then
    .failure .DiameterNonPositive
  else if smaller_width_tails p < p.pin_bit_diameter then
    .failure .TailNarrowerThanPinBit
  else if cumulative_tail_width p ≥ p.width then
    .failure .TailsExceedBoardWidth
  else if ¬ p.width - cumulative_tail_width p > 0 then
    .assertionError
  else if (num_tail_cuts p : ℝ) = 0 then
    .zeroDivisionError
  else if individual_width_of_tail_cut p < calculate_upper_tail_diameter p then
    .failure .InterTailCutTooNarrow
  else
    .ok { tan_cut_angle := tan_cut_angle p
          is_odd_number_of_tails := is_odd_number_of_tails p
          upper_tail_diameter := calculate_upper_tail_diameter p
          smaller_width_tails := smaller_width_tails p
          individual_width_of_tail_cut := individual_width_of_tail_cut p }

/- The layout generator.  Every SVG element added to the current layer by
the extension becomes one `CutShape` value below. -/

/-- The `RoutingType` enumeration of `shaper_origin_base.py` (the colour
pairs carried by the Python enum are presentation only and elided). -/
inductive RoutingType
  | GUIDE
  | INTERIOR
  | EXTERIOR
  | ON_LINE
  | POCKET
deriving DecidableEq

/-- An abstract shape record: a rectangle as stored by `add_box`, a four
point polygon as stored by `add_polygon`, the custom anchor triangle of
`create_anchor_polygon`, or a text element of `add_text` (only its anchor
position is geometry; the rendered string is presentation).  Coordinates
are kept in document units (millimetres); the `du2uu` unit conversion is
host glue outside the core. -/
inductive CutShape
  | box (x0 y0 x1 y1 : ℝ) (routing : RoutingType) (depth : Option ℝ)
  | poly (tl tr br bl : ℝ × ℝ) (depth : ℝ)
  | anchor (x y x_size : ℝ)
  | text (x y : ℝ)

/-- Method `add_box` (lines 105-116): the stored rectangle has its corner
at the componentwise minimum and extends by the absolute differences, so
its corners are the componentwise minima and maxima of the arguments. -/
noncomputable def add_box (x0 y0 x1 y1 : ℝ) (routing : RoutingType)
    (depth : Option ℝ) : CutShape :=
  .box (min x0 x1) (min y0 y1) (max x0 x1) (max y0 y1) routing depth

/-- Method `add_polygon` (lines 119-125): always INTERIOR with depth
`self.options.tail_thickness`. -/
def add_polygon (p : JointParameters) (tl tr br bl : ℝ × ℝ) : CutShape :=
  .poly tl tr br bl p.tail_thickness

/-- The `while x < self.options.width` loop of `add_tail_cuts`
(lines 148-153), modelled with a fuel argument; `add_tail_cuts` passes a
fuel that is proven large enough for validated parameters (the loop then
stops because its guard fails, not because fuel runs out). -/
noncomputable def tail_cut_while_loop (p : JointParameters)
    (g : ResolvedGeometry) (start_y end_y : ℝ) : ℕ → ℝ → List CutShape
  | 0, _ => []
  | fuel + 1, x =>
    if x < p.width then
      add_box x start_y (x + g.individual_width_of_tail_cut) end_y
          .INTERIOR (some p.pin_thickness) ::
        tail_cut_while_loop p g start_y end_y fuel
          (x + g.individual_width_of_tail_cut + p.width_tails)
    else []

/-- The `for i in range(self.options.num_tails - 1)` loop of
`add_tail_cuts` (lines 163-168), recursing on the remaining iteration
count while threading `x`. -/
noncomputable def tail_cut_for_loop (p : JointParameters)
    (g : ResolvedGeometry) (start_y end_y : ℝ) : ℕ → ℝ → List CutShape
  | 0, _ => []
  | k + 1, x =>
    add_box x start_y (x + g.individual_width_of_tail_cut) end_y
        .INTERIOR (some p.pin_thickness) ::
      tail_cut_for_loop p g start_y end_y k
        (x + g.individual_width_of_tail_cut + p.width_tails)

/-- Method `add_tail_cuts` (lines 128-169).  Returns the emitted shapes
together with the returned `end_y`. -/
noncomputable def add_tail_cuts (p : JointParameters) (g : ResolvedGeometry)
    (y_origin_tail_board : ℝ) : List CutShape × ℝ :=
  let cutting_buffer_above_board :=
    p.tail_bit_diameter * OVERCUTTING_BUFFER_FACTOR
  let start_y := y_origin_tail_board - cutting_buffer_above_board
  let cutting_buffer_below_board :=
    p.tail_bit_diameter * LOWER_OVERCUTTING_BUFFER_DOVETAIL_BIT_FACTOR
  let end_y := y_origin_tail_board + p.tail_thickness +
    cutting_buffer_below_board
  if g.is_odd_number_of_tails then
    (tail_cut_while_loop p g start_y end_y (p.num_tails.toNat + 2)
        (p.width_tails / 2),
     end_y)
  else
    (add_box (-HORIZONTAL_BUFFER) start_y
        (g.individual_width_of_tail_cut / 2) end_y
        .INTERIOR (some p.pin_thickness) ::
      add_box (p.width - g.individual_width_of_tail_cut / 2) start_y
        (p.width + HORIZONTAL_BUFFER) end_y
        .INTERIOR (some p.pin_thickness) ::
      tail_cut_for_loop p g start_y end_y (p.num_tails - 1).toNat
        (g.individual_width_of_tail_cut / 2 + p.width_tails),
     end_y)

/-- The `for i in range(self.options.num_tails)` loop of `add_pin_cuts`
(lines 241-249), recursing on the remaining iteration count while
threading `x`. -/
noncomputable def pin_cut_for_loop (p : JointParameters)
    (g : ResolvedGeometry) (start_y end_y delta_x : ℝ) :
    ℕ → ℝ → List CutShape
  | 0, _ => []
  | k + 1, x =>
    add_polygon p
        (x - g.smaller_width_tails / 2 + delta_x, start_y)
        (x + g.smaller_width_tails / 2 - delta_x, start_y)
        (x + p.width_tails / 2 + delta_x, end_y)
        (x - p.width_tails / 2 - delta_x, end_y) ::
      pin_cut_for_loop p g start_y end_y delta_x k
        (x + g.individual_width_of_tail_cut + p.width_tails)

/-- Method `add_pin_cuts` (lines 172-251).  Returns the emitted shapes
together with the returned `end_y`. -/
noncomputable def add_pin_cuts (p : JointParameters) (g : ResolvedGeometry) :
    List CutShape × ℝ :=
  let cutting_buffer_outside_of_board :=
    p.pin_bit_diameter * OVERCUTTING_BUFFER_FACTOR
  let start_y := -cutting_buffer_outside_of_board
  let end_y := p.pin_thickness + cutting_buffer_outside_of_board
  let delta_x := cutting_buffer_outside_of_board * g.tan_cut_angle
  if g.is_odd_number_of_tails then
    (add_polygon p
        (-HORIZONTAL_BUFFER, start_y)
        (g.smaller_width_tails / 2 - delta_x, start_y)
        (p.width_tails / 2 + delta_x, end_y)
        (-HORIZONTAL_BUFFER, end_y) ::
      add_polygon p
        (p.width - g.smaller_width_tails / 2 + delta_x, start_y)
        (p.width + HORIZONTAL_BUFFER, start_y)
        (p.width + HORIZONTAL_BUFFER, end_y)
        (p.width - p.width_tails / 2 - delta_x, end_y) ::
      pin_cut_for_loop p g start_y end_y delta_x p.num_tails.toNat
        (p.width_tails + g.individual_width_of_tail_cut),
     end_y)
  else
    (pin_cut_for_loop p g start_y end_y delta_x p.num_tails.toNat
        ((p.width_tails + g.individual_width_of_tail_cut) / 2),
     end_y)

/-- Method `add_pin_board` (lines 334-352): guide rectangle, pin pocket
trapezoids, custom anchor, two text lines; returns shapes and
`lower_end`. -/
noncomputable def add_pin_board (p : JointParameters) (g : ResolvedGeometry) :
    List CutShape × ℝ :=
  let pins := add_pin_cuts p g
  let lower_end := pins.2
  (add_box 0 0 p.width p.pin_thickness .GUIDE none ::
    pins.1 ++
    [CutShape.anchor 0 p.pin_thickness (p.pin_thickness / 2),
     CutShape.text 0 (lower_end + LINE_HEIGHT),
     CutShape.text 0 (lower_end + 2 * LINE_HEIGHT)],
   lower_end)

/-- Method `add_tail_board` (lines 355-392): guide rectangle, tail cut
rectangles, custom anchor, eight text lines. -/
noncomputable def add_tail_board (p : JointParameters) (g : ResolvedGeometry)
    (y_origin_tail_board : ℝ) : List CutShape :=
  let tails := add_tail_cuts p g y_origin_tail_board
  let lower_end := tails.2
  add_box 0 y_origin_tail_board p.width
      (y_origin_tail_board + p.tail_thickness) .GUIDE none ::
    tails.1 ++
    [CutShape.anchor 0 (y_origin_tail_board + p.tail_thickness)
       (p.tail_thickness / 2),
     CutShape.text 0 (lower_end + LINE_HEIGHT),
     CutShape.text 0 (lower_end + 2 * LINE_HEIGHT),
     CutShape.text 0 (lower_end + 3 * LINE_HEIGHT),
     CutShape.text 0 (lower_end + 4.5 * LINE_HEIGHT),
     CutShape.text 0 (lower_end + 5.5 * LINE_HEIGHT),
     CutShape.text 0 (lower_end + 6.5 * LINE_HEIGHT),
     CutShape.text 0 (lower_end + 9 * LINE_HEIGHT),
     CutShape.text 0 (lower_end + 10 * LINE_HEIGHT)]

/-- Observable outcome of one run of the extension: either an uncaught
exception, or the list of shapes added to the document together with the
list of error messages shown to the user. -/
inductive EffectResult
  | crashed
  | completed (shapes : List CutShape) (failures : List ValidationFailure)

/-- Method `shaper_effect` (lines 395-402): on a validation failure the
message is displayed and the method returns at once, drawing nothing;
otherwise the pin board and then the tail board (offset by
`__VERTICAL_OFFSET_BOARDS__` below the pin board graphics) are drawn. -/
noncomputable def shaper_effect (p : JointParameters) : EffectResult :=
  match calc_and_check_parameters p with
  | .failure f => .completed [] [f]
  | .assertionError => .crashed
  | .zeroDivisionError => .crashed
  | .ok g =>
    let pin := add_pin_board p g
    .completed
      (pin.1 ++ add_tail_board p g (pin.2 + VERTICAL_OFFSET_BOARDS)) []

/- Geometric accessors on shapes, used to state the claims. -/

/-- Width of the top edge of a polygon (zero for other shapes). -/
noncomputable def CutShape.topEdgeWidth : CutShape → ℝ
  | .poly tl tr _ _ _ => tr.1 - tl.1
  | _ => 0

/-- Width of the bottom edge of a polygon (zero for other shapes). -/
noncomputable def CutShape.bottomEdgeWidth : CutShape → ℝ
  | .poly _ _ br bl _ => br.1 - bl.1
  | _ => 0

/-- Y coordinate of the top edge. -/
noncomputable def CutShape.topY : CutShape → ℝ
  | .poly tl _ _ _ _ => tl.2
  | .box _ y0 _ _ _ _ => y0
  | _ => 0

/-- Y coordinate of the bottom edge. -/
noncomputable def CutShape.bottomY : CutShape → ℝ
  | .poly _ _ _ bl _ => bl.2
  | .box _ _ _ y1 _ _ => y1
  | _ => 0

/-- Horizontal center of the top edge of a polygon, or of a box. -/
noncomputable def CutShape.centerX : CutShape → ℝ
  | .poly tl tr _ _ _ => (tl.1 + tr.1) / 2
  | .box x0 _ x1 _ _ _ => (x0 + x1) / 2
  | _ => 0

/-- Cut depth metadata attached to a shape. -/
def CutShape.depthOf : CutShape → Option ℝ
  | .box _ _ _ _ _ d => d
  | .poly _ _ _ _ d => some d
  | _ => none

/-- X coordinate reached at height `y` by the straight edge joining
`(x0, y0)` to `(x1, y1)`. -/
noncomputable def edgeX (y0 x0 y1 x1 y : ℝ) : ℝ :=
  x0 + (x1 - x0) * ((y - y0) / (y1 - y0))

/-- The closed planar region covered by a shape: for a trapezoid (parallel
top and bottom edges) the points between the two slanted edges
interpolated at the height of the point; for a rectangle the axis-aligned
region; empty for anchors and text. -/
noncomputable def CutShape.containsPt : CutShape → ℝ × ℝ → Prop
  | .poly tl tr br bl _, q =>
    tl.2 ≤ q.2 ∧ q.2 ≤ bl.2 ∧
    edgeX tl.2 tl.1 bl.2 bl.1 q.2 ≤ q.1 ∧
    q.1 ≤ edgeX tr.2 tr.1 br.2 br.1 q.2
  | .box x0 y0 x1 y1 _ _, q =>
    x0 ≤ q.1 ∧ q.1 ≤ x1 ∧ y0 ≤ q.2 ∧ q.2 ≤ y1
  | _, _ => False

/-- Horizontal extent of a trapezoid at height `y` (difference of the two
interpolated slanted edges). -/
noncomputable def CutShape.widthAt : CutShape → ℝ → ℝ
  | .poly tl tr br bl _, y =>
    edgeX tr.2 tr.1 br.2 br.1 y - edgeX tl.2 tl.1 bl.2 bl.1 y
  | .box x0 _ x1 _ _ _, _ => x1 - x0
  | _, _ => 0

/-- The trapezoid emitted by one iteration of the `add_pin_cuts` loop
whose running `x` is at `x`. -/
noncomputable def pin_trapezoid (p : JointParameters) (g : ResolvedGeometry)
    (start_y end_y delta_x x : ℝ) : CutShape :=
  add_polygon p
    (x - g.smaller_width_tails / 2 + delta_x, start_y)
    (x + g.smaller_width_tails / 2 - delta_x, start_y)
    (x + p.width_tails / 2 + delta_x, end_y)
    (x - p.width_tails / 2 - delta_x, end_y)

/-- The rectangle emitted by one iteration of either `add_tail_cuts` loop
whose running `x` is at `x`. -/
noncomputable def tail_cut_box (p : JointParameters) (g : ResolvedGeometry)
    (start_y end_y x : ℝ) : CutShape :=
  add_box x start_y (x + g.individual_width_of_tail_cut) end_y
    .INTERIOR (some p.pin_thickness)

/-- Scenario with an even number of tails:
angle 45, dovetail bit 10, straight bit 2, tail board 5, pin board 2,
board width 150, tail width 20, 2 tails. -/
def pEven : JointParameters := ⟨45, 10, 2, 5, 2, 150, 20, 2⟩

/-- The geometry `__calc_and_check_parameters` derives from `pEven`. -/
def gEven : ResolvedGeometry := ⟨1, false, 6, 16, 55⟩

/-- Scenario with a single tail (odd branch), otherwise as `pEven`. -/
def pOdd : JointParameters := ⟨45, 10, 2, 5, 2, 150, 20, 1⟩

/-- The geometry derived from `pOdd`. -/
def gOdd : ResolvedGeometry := ⟨1, true, 6, 16, 55⟩

/-- A single-tail scenario that passes every check although the pin-bit
buffer offset `delta_x` (here 4.4) exceeds half the inter-tail cut width
(here 1): angle 45, dovetail bit 3, straight bit 8, tail board 5,
pin board 1, board width 24, tail width 10, 1 tail. -/
def pBad : JointParameters := ⟨45, 3, 8, 5, 1, 24, 10, 1⟩

/-- The geometry derived from `pBad`. -/
def gBad : ResolvedGeometry := ⟨1, true, 1, 8, 2⟩

/-- A scenario whose taper/depth combination is impossible to cut:
the upper diameter is 1 - 2 = -1. -/
def pFail : JointParameters := ⟨45, 1, 1, 1, 1, 10, 1, 1⟩

/-- Scenario `pFail` with zero tails: the diameter guard still fires first. -/
def pZeroBad : JointParameters := ⟨45, 1, 1, 1, 1, 10, 1, 0⟩

/-- Scenario `pEven` with zero tails: every guard passes and the division by
`num_tail_cuts() = 0` raises. -/
def pZero : JointParameters := ⟨45, 10, 2, 5, 2, 150, 20, 0⟩

/- Inversion of a successful parameter check. -/

/-- If `__calc_and_check_parameters` succeeds, every guard along the way
was false and the stored attributes are the derived values. -/
theorem calc_ok_inv {p : JointParameters} {g : ResolvedGeometry}
    (h : calc_and_check_parameters p = .ok g) :
    0 < calculate_upper_tail_diameter p ∧
    p.pin_bit_diameter ≤ smaller_width_tails p ∧
    cumulative_tail_width p < p.width ∧
    ((num_tail_cuts p : ℤ) : ℝ) ≠ 0 ∧
    calculate_upper_tail_diameter p ≤ individual_width_of_tail_cut p ∧
    g = { tan_cut_angle := tan_cut_angle p
          is_odd_number_of_tails := is_odd_number_of_tails p
          upper_tail_diameter := calculate_upper_tail_diameter p
          smaller_width_tails := smaller_width_tails p
          individual_width_of_tail_cut := individual_width_of_tail_cut p } := by
  unfold calc_and_check_parameters at h
  split_ifs at h with h1 h2 h3 h4 h5 h6
  injection h with hg
  exact ⟨not_le.mp h1, not_lt.mp h2, not_le.mp h3, h5, not_lt.mp h6, hg.symm⟩

/- Concrete parameter sets used as witnesses.  A cut angle of 45 degrees
makes the tangent exactly 1, so every derived value is rational. -/

/-- At a 45 degree cut angle the stored tangent is exactly 1. -/
theorem tan_cut_angle_eq_one (p : JointParameters) (h : p.cut_angle = 45) :
    tan_cut_angle p = 1 := by
  unfold tan_cut_angle radians
  rw [h, show (45 : ℝ) * Real.pi / 180 = Real.pi / 4 by ring,
    Real.tan_pi_div_four]

theorem upper_pEven : calculate_upper_tail_diameter pEven = 6 := by
  unfold calculate_upper_tail_diameter
  rw [tan_cut_angle_eq_one pEven rfl]
  show (10 : ℝ) - 2 * 1 * 2 = 6
  norm_num

theorem smaller_pEven : smaller_width_tails pEven = 16 := by
  unfold smaller_width_tails
  rw [upper_pEven]
  show (20 : ℝ) - (10 - 6) = 16
  norm_num

theorem ntc_pEven : num_tail_cuts pEven = 2 := rfl

theorem cumulative_pEven : cumulative_tail_width pEven = 40 := by
  unfold cumulative_tail_width
  rw [ntc_pEven]
  show ((2 : ℤ) : ℝ) * (20 : ℝ) = 40
  norm_num

theorem individual_pEven : individual_width_of_tail_cut pEven = 55 := by
  unfold individual_width_of_tail_cut
  rw [cumulative_pEven, ntc_pEven]
  show ((150 : ℝ) - 40) / ((2 : ℤ) : ℝ) = 55
  norm_num

theorem calc_pEven : calc_and_check_parameters pEven = .ok gEven := by
  unfold calc_and_check_parameters
  rw [upper_pEven, smaller_pEven, cumulative_pEven, individual_pEven,
    ntc_pEven, tan_cut_angle_eq_one pEven rfl,
    show pEven.pin_bit_diameter = 2 from rfl,
    show pEven.width = (150 : ℝ) from rfl,
    show is_odd_number_of_tails pEven = false from rfl]
  norm_num [gEven]

theorem upper_pOdd : calculate_upper_tail_diameter pOdd = 6 := by
  unfold calculate_upper_tail_diameter
  rw [tan_cut_angle_eq_one pOdd rfl]
  show (10 : ℝ) - 2 * 1 * 2 = 6
  norm_num

theorem smaller_pOdd : smaller_width_tails pOdd = 16 := by
  unfold smaller_width_tails
  rw [upper_pOdd]
  show (20 : ℝ) - (10 - 6) = 16
  norm_num

theorem ntc_pOdd : num_tail_cuts pOdd = 2 := rfl

theorem cumulative_pOdd : cumulative_tail_width pOdd = 40 := by
  unfold cumulative_tail_width
  rw [ntc_pOdd]
  show ((2 : ℤ) : ℝ) * (20 : ℝ) = 40
  norm_num

theorem individual_pOdd : individual_width_of_tail_cut pOdd = 55 := by
  unfold individual_width_of_tail_cut
  rw [cumulative_pOdd, ntc_pOdd]
  show ((150 : ℝ) - 40) / ((2 : ℤ) : ℝ) = 55
  norm_num

theorem calc_pOdd : calc_and_check_parameters pOdd = .ok gOdd := by
  unfold calc_and_check_parameters
  rw [upper_pOdd, smaller_pOdd, cumulative_pOdd, individual_pOdd,
    ntc_pOdd, tan_cut_angle_eq_one pOdd rfl,
    show pOdd.pin_bit_diameter = 2 from rfl,
    show pOdd.width = (150 : ℝ) from rfl,
    show is_odd_number_of_tails pOdd = true from rfl]
  norm_num [gOdd]

theorem upper_pBad : calculate_upper_tail_diameter pBad = 1 := by
  unfold calculate_upper_tail_diameter
  rw [tan_cut_angle_eq_one pBad rfl]
  show (3 : ℝ) - 2 * 1 * 1 = 1
  norm_num

theorem smaller_pBad : smaller_width_tails pBad = 8 := by
  unfold smaller_width_tails
  rw [upper_pBad]
  show (10 : ℝ) - (3 - 1) = 8
  norm_num

theorem ntc_pBad : num_tail_cuts pBad = 2 := rfl

theorem cumulative_pBad : cumulative_tail_width pBad = 20 := by
  unfold cumulative_tail_width
  rw [ntc_pBad]
  show ((2 : ℤ) : ℝ) * (10 : ℝ) = 20
  norm_num

theorem individual_pBad : individual_width_of_tail_cut pBad = 2 := by
  unfold individual_width_of_tail_cut
  rw [cumulative_pBad, ntc_pBad]
  show ((24 : ℝ) - 20) / ((2 : ℤ) : ℝ) = 2
  norm_num

theorem calc_pBad : calc_and_check_parameters pBad = .ok gBad := by
  unfold calc_and_check_parameters
  rw [upper_pBad, smaller_pBad, cumulative_pBad, individual_pBad,
    ntc_pBad, tan_cut_angle_eq_one pBad rfl,
    show pBad.pin_bit_diameter = 8 from rfl,
    show pBad.width = (24 : ℝ) from rfl,
    show is_odd_number_of_tails pBad = true from rfl]
  norm_num [gBad]

theorem upper_pFail : calculate_upper_tail_diameter pFail = -1 := by
  unfold calculate_upper_tail_diameter
  rw [tan_cut_angle_eq_one pFail rfl]
  show (1 : ℝ) - 2 * 1 * 1 = -1
  norm_num

theorem calc_pFail :
    calc_and_check_parameters pFail = .failure .DiameterNonPositive := by
  unfold calc_and_check_parameters
  rw [upper_pFail]
  norm_num

theorem upper_pZeroBad : calculate_upper_tail_diameter pZeroBad = -1 := by
  unfold calculate_upper_tail_diameter
  rw [tan_cut_angle_eq_one pZeroBad rfl]
  show (1 : ℝ) - 2 * 1 * 1 = -1
  norm_num

theorem calc_pZeroBad :
    calc_and_check_parameters pZeroBad = .failure .DiameterNonPositive := by
  unfold calc_and_check_parameters
  rw [upper_pZeroBad]
  norm_num

theorem upper_pZero : calculate_upper_tail_diameter pZero = 6 := by
  unfold calculate_upper_tail_diameter
  rw [tan_cut_angle_eq_one pZero rfl]
  show (10 : ℝ) - 2 * 1 * 2 = 6
  norm_num

theorem smaller_pZero : smaller_width_tails pZero = 16 := by
  unfold smaller_width_tails
  rw [upper_pZero]
  show (20 : ℝ) - (10 - 6) = 16
  norm_num

theorem ntc_pZero : num_tail_cuts pZero = 0 := rfl

theorem cumulative_pZero : cumulative_tail_width pZero = 0 := by
  unfold cumulative_tail_width
  rw [ntc_pZero]
  show ((0 : ℤ) : ℝ) * (20 : ℝ) = 0
  norm_num

theorem calc_pZero : calc_and_check_parameters pZero = .zeroDivisionError := by
  unfold calc_and_check_parameters
  rw [upper_pZero, smaller_pZero, cumulative_pZero, ntc_pZero,
    show pZero.pin_bit_diameter = 2 from rfl,
    show pZero.width = (150 : ℝ) from rfl]
  norm_num

/- Closed forms for the three layout loops. -/

theorem pin_cut_for_loop_succ (p : JointParameters) (g : ResolvedGeometry)
    (start_y end_y delta_x : ℝ) (k : ℕ) (x : ℝ) :
    pin_cut_for_loop p g start_y end_y delta_x (k + 1) x =
      pin_trapezoid p g start_y end_y delta_x x ::
        pin_cut_for_loop p g start_y end_y delta_x k
          (x + g.individual_width_of_tail_cut + p.width_tails) := rfl

/-- The pin-cut loop emits, for `i = 0, …, k-1`, the trapezoid whose
running `x` is the start value advanced by `i` steps of
`individual_width_of_tail_cut + width_tails`. -/
theorem pin_cut_for_loop_eq_range (p : JointParameters) (g : ResolvedGeometry)
    (start_y end_y delta_x : ℝ) (k : ℕ) :
    ∀ x : ℝ,
      pin_cut_for_loop p g start_y end_y delta_x k x =
        (List.range k).map (fun i : ℕ => pin_trapezoid p g start_y end_y
          delta_x
          (x + (i : ℝ) * (g.individual_width_of_tail_cut + p.width_tails))) := by
  induction k with
  | zero => intro x; simp [pin_cut_for_loop]
  | succ k ih =>
    intro x
    rw [pin_cut_for_loop_succ, ih, List.range_succ_eq_map, List.map_cons,
      List.map_map]
    congr 1
    · congr 1
      push_cast
      ring
    · apply List.map_congr_left
      intro i _
      simp only [Function.comp]
      congr 1
      push_cast
      ring

theorem tail_cut_for_loop_succ (p : JointParameters) (g : ResolvedGeometry)
    (start_y end_y : ℝ) (k : ℕ) (x : ℝ) :
    tail_cut_for_loop p g start_y end_y (k + 1) x =
      tail_cut_box p g start_y end_y x ::
        tail_cut_for_loop p g start_y end_y k
          (x + g.individual_width_of_tail_cut + p.width_tails) := rfl

theorem tail_cut_for_loop_eq_range (p : JointParameters) (g : ResolvedGeometry)
    (start_y end_y : ℝ) (k : ℕ) :
    ∀ x : ℝ,
      tail_cut_for_loop p g start_y end_y k x =
        (List.range k).map (fun i : ℕ => tail_cut_box p g start_y end_y
          (x + (i : ℝ) * (g.individual_width_of_tail_cut + p.width_tails))) := by
  induction k with
  | zero => intro x; simp [tail_cut_for_loop]
  | succ k ih =>
    intro x
    rw [tail_cut_for_loop_succ, ih, List.range_succ_eq_map, List.map_cons,
      List.map_map]
    congr 1
    · congr 1
      push_cast
      ring
    · apply List.map_congr_left
      intro i _
      simp only [Function.comp]
      congr 1
      push_cast
      ring

/-- If the `while` guard fails for the first time after exactly `k`
iterations and the fuel exceeds `k`, the while loop of `add_tail_cuts`
stops because of its guard and emits exactly the `k` rectangles whose
running `x` is the start value advanced by `i` steps. -/
theorem tail_cut_while_loop_eq_range (p : JointParameters)
    (g : ResolvedGeometry) (start_y end_y : ℝ) (k : ℕ) :
    ∀ (fuel : ℕ) (x : ℝ), k < fuel →
      (∀ i : ℕ, i < k →
        x + i * (g.individual_width_of_tail_cut + p.width_tails) < p.width) →
      p.width ≤ x + k * (g.individual_width_of_tail_cut + p.width_tails) →
      tail_cut_while_loop p g start_y end_y fuel x =
        (List.range k).map (fun i : ℕ => tail_cut_box p g start_y end_y
          (x + (i : ℝ) * (g.individual_width_of_tail_cut + p.width_tails))) := by
  induction k with
  | zero =>
    intro fuel x hfuel _ hstop
    match fuel, hfuel with
    | f + 1, _ =>
      rw [tail_cut_while_loop,
        if_neg (by simpa using not_lt.mpr (by simpa using hstop))]
      simp
  | succ k ih =>
    intro fuel x hfuel hgo hstop
    match fuel, hfuel with
    | f + 1, hfuel =>
      have hx : x < p.width := by simpa using hgo 0 (Nat.succ_pos k)
      rw [tail_cut_while_loop, if_pos hx]
      have htail := ih f
        (x + g.individual_width_of_tail_cut + p.width_tails)
        (by omega)
        (by
          intro i hi
          have := hgo (i + 1) (by omega)
          push_cast at this ⊢
          linarith)
        (by
          push_cast at hstop ⊢
          linarith)
      rw [htail, List.range_succ_eq_map, List.map_cons, List.map_map]
      congr 1
      · simp [tail_cut_box]
      · apply List.map_congr_left
        intro i _
        simp only [Function.comp]
        congr 1
        push_cast
        ring

/-- Every shape emitted by the pin-cut loop is a `pin_trapezoid`. -/
theorem pin_cut_for_loop_mem (p : JointParameters) (g : ResolvedGeometry)
    (start_y end_y delta_x : ℝ) (k : ℕ) :
    ∀ (x : ℝ) (sh : CutShape),
      sh ∈ pin_cut_for_loop p g start_y end_y delta_x k x →
      ∃ c : ℝ, sh = pin_trapezoid p g start_y end_y delta_x c := by
  induction k with
  | zero => intro x sh h; simp [pin_cut_for_loop] at h
  | succ k ih =>
    intro x sh h
    rw [pin_cut_for_loop_succ] at h
    rcases List.mem_cons.mp h with h | h
    · exact ⟨x, h⟩
    · exact ih _ sh h

/-- Every shape emitted by the even-branch tail loop is a
`tail_cut_box`. -/
theorem tail_cut_for_loop_mem (p : JointParameters) (g : ResolvedGeometry)
    (start_y end_y : ℝ) (k : ℕ) :
    ∀ (x : ℝ) (sh : CutShape),
      sh ∈ tail_cut_for_loop p g start_y end_y k x →
      ∃ c : ℝ, sh = tail_cut_box p g start_y end_y c := by
  induction k with
  | zero => intro x sh h; simp [tail_cut_for_loop] at h
  | succ k ih =>
    intro x sh h
    rw [tail_cut_for_loop_succ] at h
    rcases List.mem_cons.mp h with h | h
    · exact ⟨x, h⟩
    · exact ih _ sh h

/-- Every shape emitted by the while loop is a `tail_cut_box`. -/
theorem tail_cut_while_loop_mem (p : JointParameters) (g : ResolvedGeometry)
    (start_y end_y : ℝ) (fuel : ℕ) :
    ∀ (x : ℝ) (sh : CutShape),
      sh ∈ tail_cut_while_loop p g start_y end_y fuel x →
      ∃ c : ℝ, sh = tail_cut_box p g start_y end_y c := by
  induction fuel with
  | zero => intro x sh h; simp [tail_cut_while_loop] at h
  | succ fuel ih =>
    intro x sh h
    rw [tail_cut_while_loop] at h
    by_cases hx : x < p.width
    · rw [if_pos hx] at h
      rcases List.mem_cons.mp h with h | h
      · exact ⟨x, h⟩
      · exact ih _ sh h
    · rw [if_neg hx] at h
      simp at h

/-- For at least one tail there is at least one tail cut, so the divisor
of `individual_width_of_tail_cut` is nonzero. -/
theorem num_tail_cuts_pos {p : JointParameters} (hn : 1 ≤ p.num_tails) :
    1 ≤ num_tail_cuts p := by
  unfold num_tail_cuts
  split <;> omega

/-- C1: for every `JointParameters` with positive lengths, cut angle in
(0, 90) and at least one tail, `__calc_and_check_parameters` succeeds iff
none of the four constraint violations holds, and each failure is reported
exactly when it is the first violated constraint in the fixed order
DiameterNonPositive, TailNarrowerThanPinBit, TailsExceedBoardWidth,
InterTailCutTooNarrow. -/
theorem C1_resolve_success_iff_first_violation (p : JointParameters)
    (htbd : 0 < p.tail_bit_diameter) (hpbd : 0 < p.pin_bit_diameter)
    (htt : 0 < p.tail_thickness) (hpt : 0 < p.pin_thickness)
    (hw : 0 < p.width) (hwt : 0 < p.width_tails)
    (ha0 : 0 < p.cut_angle) (ha90 : p.cut_angle < 90)
    (hn : 1 ≤ p.num_tails) :
    ((∃ g, calc_and_check_parameters p = .ok g) ↔
      ¬ calculate_upper_tail_diameter p ≤ 0 ∧
      ¬ smaller_width_tails p < p.pin_bit_diameter ∧
      ¬ cumulative_tail_width p ≥ p.width ∧
      ¬ individual_width_of_tail_cut p < calculate_upper_tail_diameter p) ∧
    (calculate_upper_tail_diameter p ≤ 0 →
      calc_and_check_parameters p = .failure .DiameterNonPositive) ∧
    (¬ calculate_upper_tail_diameter p ≤ 0 →
      smaller_width_tails p < p.pin_bit_diameter →
      calc_and_check_parameters p = .failure .TailNarrowerThanPinBit) ∧
    (¬ calculate_upper_tail_diameter p ≤ 0 →
      ¬ smaller_width_tails p < p.pin_bit_diameter →
      cumulative_tail_width p ≥ p.width →
      calc_and_check_parameters p = .failure .TailsExceedBoardWidth) ∧
    (¬ calculate_upper_tail_diameter p ≤ 0 →
      ¬ smaller_width_tails p < p.pin_bit_diameter →
      ¬ cumulative_tail_width p ≥ p.width →
      individual_width_of_tail_cut p < calculate_upper_tail_diameter p →
      calc_and_check_parameters p = .failure .InterTailCutTooNarrow) := by
  have hntc1 : 1 ≤ num_tail_cuts p := num_tail_cuts_pos hn
  have hntc : ((num_tail_cuts p : ℤ) : ℝ) ≠ 0 :=
    Int.cast_ne_zero.mpr (by omega)
  refine ⟨⟨?_, ?_⟩, ?_, ?_, ?_, ?_⟩
  · rintro ⟨g, hg⟩
    obtain ⟨h1, h2, h3, -, h4, -⟩ := calc_ok_inv hg
    exact ⟨not_le.mpr h1, not_lt.mpr h2, not_le.mpr h3, not_lt.mpr h4⟩
  · rintro ⟨h1, h2, h3, h4⟩
    refine ⟨{ tan_cut_angle := tan_cut_angle p
              is_odd_number_of_tails := is_odd_number_of_tails p
              upper_tail_diameter := calculate_upper_tail_diameter p
              smaller_width_tails := smaller_width_tails p
              individual_width_of_tail_cut :=
                individual_width_of_tail_cut p }, ?_⟩
    unfold calc_and_check_parameters
    rw [if_neg h1, if_neg h2, if_neg h3,
      if_neg (not_not_intro (by linarith [not_le.mp h3] :
        p.width - cumulative_tail_width p > 0)),
      if_neg hntc, if_neg h4]
  · intro h1
    unfold calc_and_check_parameters
    rw [if_pos h1]
  · intro h1 h2
    unfold calc_and_check_parameters
    rw [if_neg h1, if_pos h2]
  · intro h1 h2 h3
    unfold calc_and_check_parameters
    rw [if_neg h1, if_neg h2, if_pos h3]
  · intro h1 h2 h3 h4
    unfold calc_and_check_parameters
    rw [if_neg h1, if_neg h2, if_neg h3,
      if_neg (not_not_intro (by linarith [not_le.mp h3] :
        p.width - cumulative_tail_width p > 0)),
      if_neg hntc, if_pos h4]

/-- Witness for C1 at the concrete impossible-diameter scenario `pFail`:
all hypotheses hold and the first guard reports DiameterNonPositive. -/
theorem C1_witness :
    (0 < pFail.tail_bit_diameter ∧ 0 < pFail.pin_bit_diameter ∧
     0 < pFail.tail_thickness ∧ 0 < pFail.pin_thickness ∧
     0 < pFail.width ∧ 0 < pFail.width_tails ∧
     0 < pFail.cut_angle ∧ pFail.cut_angle < 90 ∧ 1 ≤ pFail.num_tails) ∧
    calculate_upper_tail_diameter pFail ≤ 0 ∧
    calc_and_check_parameters pFail = .failure .DiameterNonPositive :=
  ⟨⟨by norm_num [pFail], by norm_num [pFail], by norm_num [pFail],
    by norm_num [pFail], by norm_num [pFail], by norm_num [pFail],
    by norm_num [pFail], by norm_num [pFail], by norm_num [pFail]⟩,
   by rw [upper_pFail]; norm_num,
   (C1_resolve_success_iff_first_violation pFail
      (by norm_num [pFail]) (by norm_num [pFail]) (by norm_num [pFail])
      (by norm_num [pFail]) (by norm_num [pFail]) (by norm_num [pFail])
      (by norm_num [pFail]) (by norm_num [pFail])
      (by norm_num [pFail])).2.1
    (by rw [upper_pFail]; norm_num)⟩

/-- C2: on success, the stored derived values are exactly the taper
formula, the narrowing formula, the parity-adjusted cut count and the
ratio of the remaining width. -/
theorem C2_derived_values (p : JointParameters) (g : ResolvedGeometry)
    (h : calc_and_check_parameters p = .ok g) :
    g.upper_tail_diameter =
      p.tail_bit_diameter -
        2 * Real.tan (p.cut_angle * Real.pi / 180) * p.pin_thickness ∧
    g.smaller_width_tails =
      p.width_tails - (p.tail_bit_diameter - g.upper_tail_diameter) ∧
    num_tail_cuts p =
      (if p.num_tails % 2 = 1 then p.num_tails + 1 else p.num_tails) ∧
    g.individual_width_of_tail_cut =
      (p.width - (num_tail_cuts p : ℝ) * p.width_tails) /
        (num_tail_cuts p : ℝ) := by
  obtain ⟨-, -, -, -, -, hg⟩ := calc_ok_inv h
  subst hg
  refine ⟨rfl, rfl, ?_, rfl⟩
  simp [num_tail_cuts, is_odd_number_of_tails]

/-- Witness for C2 at `pEven`. -/
theorem C2_witness :
    calc_and_check_parameters pEven = .ok gEven ∧
    (gEven.upper_tail_diameter =
      pEven.tail_bit_diameter -
        2 * Real.tan (pEven.cut_angle * Real.pi / 180) *
          pEven.pin_thickness ∧
    gEven.smaller_width_tails =
      pEven.width_tails -
        (pEven.tail_bit_diameter - gEven.upper_tail_diameter) ∧
    num_tail_cuts pEven =
      (if pEven.num_tails % 2 = 1 then pEven.num_tails + 1
       else pEven.num_tails) ∧
    gEven.individual_width_of_tail_cut =
      (pEven.width - (num_tail_cuts pEven : ℝ) * pEven.width_tails) /
        (num_tail_cuts pEven : ℝ)) :=
  ⟨calc_pEven, C2_derived_values pEven gEven calc_pEven⟩

/-- C3: when the parameter check fails, the effect draws nothing and only
shows the single failure message. -/
theorem C3_no_shapes_on_failure (p : JointParameters) (f : ValidationFailure)
    (h : calc_and_check_parameters p = .failure f) :
    shaper_effect p = .completed [] [f] := by
  unfold shaper_effect
  rw [h]

/-- Witness for C3 at `pFail`. -/
theorem C3_witness :
    calc_and_check_parameters pFail = .failure .DiameterNonPositive ∧
    shaper_effect pFail = .completed [] [.DiameterNonPositive] :=
  ⟨calc_pFail, C3_no_shapes_on_failure pFail .DiameterNonPositive calc_pFail⟩

/-- Counterexample to C9 as stated: with zero tails the parameter check
can still return a `ValidationFailure` (here the diameter guard fires
before the division is ever reached), so "for num_tails = 0 the check
does not return a ValidationFailure but performs a division by zero" is
not universally true. -/
theorem C9_counterexample :
    pZeroBad.num_tails = 0 ∧
    calc_and_check_parameters pZeroBad = .failure .DiameterNonPositive ∧
    calc_and_check_parameters pZeroBad ≠ .zeroDivisionError := by
  refine ⟨rfl, calc_pZeroBad, ?_⟩
  rw [calc_pZeroBad]
  intro h
  exact CheckResult.noConfusion h

/-- C9 (amended): with at least one tail, `num_tail_cuts() ≥ 1`, the
divisor of the inter-tail width is nonzero, and the check can neither hit
the internal assertion nor divide by zero; with zero tails, whenever the
guards before the division all pass (positive upper diameter, tail not
narrower than the pin bit, positive board width), the check divides by
zero instead of returning a `ValidationFailure`. -/
theorem C9_division_safety (p : JointParameters) :
    (1 ≤ p.num_tails →
      1 ≤ num_tail_cuts p ∧
      ((num_tail_cuts p : ℤ) : ℝ) ≠ 0 ∧
      calc_and_check_parameters p ≠ .assertionError ∧
      calc_and_check_parameters p ≠ .zeroDivisionError) ∧
    (p.num_tails = 0 →
      ¬ calculate_upper_tail_diameter p ≤ 0 →
      ¬ smaller_width_tails p < p.pin_bit_diameter →
      0 < p.width →
      calc_and_check_parameters p = .zeroDivisionError) := by
  constructor
  · intro hn
    have hntc1 : 1 ≤ num_tail_cuts p := num_tail_cuts_pos hn
    have hcast : (1 : ℝ) ≤ ((num_tail_cuts p : ℤ) : ℝ) := by
      exact_mod_cast hntc1
    have hcases : (∃ f, calc_and_check_parameters p = .failure f) ∨
        (∃ g, calc_and_check_parameters p = .ok g) := by
      unfold calc_and_check_parameters
      by_cases c1 : calculate_upper_tail_diameter p ≤ 0
      · rw [if_pos c1]; exact Or.inl ⟨_, rfl⟩
      rw [if_neg c1]
      by_cases c2 : smaller_width_tails p < p.pin_bit_diameter
      · rw [if_pos c2]; exact Or.inl ⟨_, rfl⟩
      rw [if_neg c2]
      by_cases c3 : cumulative_tail_width p ≥ p.width
      · rw [if_pos c3]; exact Or.inl ⟨_, rfl⟩
      rw [if_neg c3,
        if_neg (not_not_intro (by linarith [not_le.mp c3] :
          p.width - cumulative_tail_width p > 0)),
        if_neg (by intro h; rw [h] at hcast; linarith :
          ¬ ((num_tail_cuts p : ℤ) : ℝ) = 0)]
      by_cases c6 : individual_width_of_tail_cut p <
          calculate_upper_tail_diameter p
      · rw [if_pos c6]; exact Or.inl ⟨_, rfl⟩
      rw [if_neg c6]; exact Or.inr ⟨_, rfl⟩
    refine ⟨hntc1, by linarith, ?_, ?_⟩
    · rcases hcases with ⟨f, hf⟩ | ⟨g, hg⟩
      · rw [hf]; simp
      · rw [hg]; simp
    · rcases hcases with ⟨f, hf⟩ | ⟨g, hg⟩
      · rw [hf]; simp
      · rw [hg]; simp
  · intro h0 h1 h2 hw
    have hodd : is_odd_number_of_tails p = false := by
      unfold is_odd_number_of_tails
      rw [h0]
      decide
    have hntc0 : num_tail_cuts p = 0 := by
      unfold num_tail_cuts
      rw [hodd, h0]
      simp
    have hcum : cumulative_tail_width p = 0 := by
      unfold cumulative_tail_width
      rw [hntc0]
      simp
    unfold calc_and_check_parameters
    rw [if_neg h1, if_neg h2, hcum, hntc0,
      if_neg (not_le.mpr hw),
      if_neg (not_not_intro (by linarith : p.width - 0 > 0)),
      if_pos (by norm_num)]

/-- Reduction of `add_tail_cuts` in the odd branch. -/
theorem add_tail_cuts_odd (p : JointParameters) (g : ResolvedGeometry)
    (y0 : ℝ) (hodd : g.is_odd_number_of_tails = true) :
    add_tail_cuts p g y0 =
      (tail_cut_while_loop p g
        (y0 - p.tail_bit_diameter * OVERCUTTING_BUFFER_FACTOR)
        (y0 + p.tail_thickness +
          p.tail_bit_diameter * LOWER_OVERCUTTING_BUFFER_DOVETAIL_BIT_FACTOR)
        (p.num_tails.toNat + 2) (p.width_tails / 2),
       y0 + p.tail_thickness +
         p.tail_bit_diameter * LOWER_OVERCUTTING_BUFFER_DOVETAIL_BIT_FACTOR) := by
  simp only [add_tail_cuts, hodd, if_true]

/-- Reduction of `add_tail_cuts` in the even branch. -/
theorem add_tail_cuts_even (p : JointParameters) (g : ResolvedGeometry)
    (y0 : ℝ) (hodd : g.is_odd_number_of_tails = false) :
    add_tail_cuts p g y0 =
      (add_box (-HORIZONTAL_BUFFER)
          (y0 - p.tail_bit_diameter * OVERCUTTING_BUFFER_FACTOR)
          (g.individual_width_of_tail_cut / 2)
          (y0 + p.tail_thickness +
            p.tail_bit_diameter * LOWER_OVERCUTTING_BUFFER_DOVETAIL_BIT_FACTOR)
          .INTERIOR (some p.pin_thickness) ::
        add_box (p.width - g.individual_width_of_tail_cut / 2)
          (y0 - p.tail_bit_diameter * OVERCUTTING_BUFFER_FACTOR)
          (p.width + HORIZONTAL_BUFFER)
          (y0 + p.tail_thickness +
            p.tail_bit_diameter * LOWER_OVERCUTTING_BUFFER_DOVETAIL_BIT_FACTOR)
          .INTERIOR (some p.pin_thickness) ::
        tail_cut_for_loop p g
          (y0 - p.tail_bit_diameter * OVERCUTTING_BUFFER_FACTOR)
          (y0 + p.tail_thickness +
            p.tail_bit_diameter * LOWER_OVERCUTTING_BUFFER_DOVETAIL_BIT_FACTOR)
          (p.num_tails - 1).toNat
          (g.individual_width_of_tail_cut / 2 + p.width_tails),
       y0 + p.tail_thickness +
         p.tail_bit_diameter * LOWER_OVERCUTTING_BUFFER_DOVETAIL_BIT_FACTOR) := by
  simp only [add_tail_cuts, hodd, if_false, Bool.false_eq_true]

/-- Reduction of `add_pin_cuts` in the odd branch. -/
theorem add_pin_cuts_odd (p : JointParameters) (g : ResolvedGeometry)
    (hodd : g.is_odd_number_of_tails = true) :
    add_pin_cuts p g =
      (add_polygon p
          (-HORIZONTAL_BUFFER,
           -(p.pin_bit_diameter * OVERCUTTING_BUFFER_FACTOR))
          (g.smaller_width_tails / 2 -
             p.pin_bit_diameter * OVERCUTTING_BUFFER_FACTOR * g.tan_cut_angle,
           -(p.pin_bit_diameter * OVERCUTTING_BUFFER_FACTOR))
          (p.width_tails / 2 +
             p.pin_bit_diameter * OVERCUTTING_BUFFER_FACTOR * g.tan_cut_angle,
           p.pin_thickness + p.pin_bit_diameter * OVERCUTTING_BUFFER_FACTOR)
          (-HORIZONTAL_BUFFER,
           p.pin_thickness + p.pin_bit_diameter * OVERCUTTING_BUFFER_FACTOR) ::
        add_polygon p
          (p.width - g.smaller_width_tails / 2 +
             p.pin_bit_diameter * OVERCUTTING_BUFFER_FACTOR * g.tan_cut_angle,
           -(p.pin_bit_diameter * OVERCUTTING_BUFFER_FACTOR))
          (p.width + HORIZONTAL_BUFFER,
           -(p.pin_bit_diameter * OVERCUTTING_BUFFER_FACTOR))
          (p.width + HORIZONTAL_BUFFER,
           p.pin_thickness + p.pin_bit_diameter * OVERCUTTING_BUFFER_FACTOR)
          (p.width - p.width_tails / 2 -
             p.pin_bit_diameter * OVERCUTTING_BUFFER_FACTOR * g.tan_cut_angle,
           p.pin_thickness + p.pin_bit_diameter * OVERCUTTING_BUFFER_FACTOR) ::
        pin_cut_for_loop p g
          (-(p.pin_bit_diameter * OVERCUTTING_BUFFER_FACTOR))
          (p.pin_thickness + p.pin_bit_diameter * OVERCUTTING_BUFFER_FACTOR)
          (p.pin_bit_diameter * OVERCUTTING_BUFFER_FACTOR * g.tan_cut_angle)
          p.num_tails.toNat
          (p.width_tails + g.individual_width_of_tail_cut),
       p.pin_thickness + p.pin_bit_diameter * OVERCUTTING_BUFFER_FACTOR) := by
  simp only [add_pin_cuts, hodd, if_true]

/-- Reduction of `add_pin_cuts` in the even branch. -/
theorem add_pin_cuts_even (p : JointParameters) (g : ResolvedGeometry)
    (hodd : g.is_odd_number_of_tails = false) :
    add_pin_cuts p g =
      (pin_cut_for_loop p g
        (-(p.pin_bit_diameter * OVERCUTTING_BUFFER_FACTOR))
        (p.pin_thickness + p.pin_bit_diameter * OVERCUTTING_BUFFER_FACTOR)
        (p.pin_bit_diameter * OVERCUTTING_BUFFER_FACTOR * g.tan_cut_angle)
        p.num_tails.toNat
        ((p.width_tails + g.individual_width_of_tail_cut) / 2),
       p.pin_thickness + p.pin_bit_diameter * OVERCUTTING_BUFFER_FACTOR) := by
  simp only [add_pin_cuts, hodd, if_false, Bool.false_eq_true]

/-- Calling `add_box` with vertically ordered arguments stores the given y span
unchanged. -/
theorem add_box_y (a sy b ey : ℝ) (rt : RoutingType) (d : Option ℝ)
    (hy : sy ≤ ey) :
    add_box a sy b ey rt d = CutShape.box (min a b) sy (max a b) ey rt d := by
  unfold add_box
  rw [min_eq_left hy, max_eq_right hy]

/-- A `tail_cut_box` with ordered y arguments, in stored form. -/
theorem tail_cut_box_eq (p : JointParameters) (g : ResolvedGeometry)
    (sy ey c : ℝ) (hy : sy ≤ ey) :
    tail_cut_box p g sy ey c =
      CutShape.box (min c (c + g.individual_width_of_tail_cut)) sy
        (max c (c + g.individual_width_of_tail_cut)) ey
        .INTERIOR (some p.pin_thickness) := by
  unfold tail_cut_box
  exact add_box_y _ _ _ _ _ _ hy

/-- C5: every tail-board cut rectangle spans vertically from
`y0 − tail_bit_diameter × 0.55` to
`y0 + tail_thickness + tail_bit_diameter × 1.0` (upper buffer factor 0.55,
lower buffer the full diameter) and carries depth `pin_thickness`, while
every pin-board trapezoid carries depth `tail_thickness`. -/
theorem C5_buffers_and_depths (p : JointParameters) (g : ResolvedGeometry)
    (y0 : ℝ) (h : calc_and_check_parameters p = .ok g)
    (htbd : 0 < p.tail_bit_diameter) (htt : 0 < p.tail_thickness) :
    (∀ sh ∈ (add_tail_cuts p g y0).1, ∃ xa xb : ℝ,
      sh = CutShape.box xa (y0 - p.tail_bit_diameter * 0.55) xb
        (y0 + p.tail_thickness + p.tail_bit_diameter * 1.0)
        .INTERIOR (some p.pin_thickness)) ∧
    (∀ sh ∈ (add_pin_cuts p g).1,
      sh.depthOf = some p.tail_thickness) := by
  have hy : y0 - p.tail_bit_diameter * OVERCUTTING_BUFFER_FACTOR ≤
      y0 + p.tail_thickness +
        p.tail_bit_diameter * LOWER_OVERCUTTING_BUFFER_DOVETAIL_BIT_FACTOR := by
    rw [show OVERCUTTING_BUFFER_FACTOR = 0.55 from rfl,
      show LOWER_OVERCUTTING_BUFFER_DOVETAIL_BIT_FACTOR = 1.0 from rfl]
    nlinarith
  constructor
  · intro sh hsh
    rcases Bool.eq_false_or_eq_true g.is_odd_number_of_tails with hodd | hodd
    · rw [add_tail_cuts_odd p g y0 hodd] at hsh
      obtain ⟨c, hc⟩ := tail_cut_while_loop_mem p g _ _ _ _ sh hsh
      rw [hc, tail_cut_box_eq p g _ _ c hy]
      exact ⟨_, _, rfl⟩
    · rw [add_tail_cuts_even p g y0 hodd] at hsh
      simp only [List.mem_cons] at hsh
      rcases hsh with rfl | rfl | hsh
      · rw [add_box_y _ _ _ _ _ _ hy]
        exact ⟨_, _, rfl⟩
      · rw [add_box_y _ _ _ _ _ _ hy]
        exact ⟨_, _, rfl⟩
      · obtain ⟨c, hc⟩ := tail_cut_for_loop_mem p g _ _ _ _ sh hsh
        rw [hc, tail_cut_box_eq p g _ _ c hy]
        exact ⟨_, _, rfl⟩
  · intro sh hsh
    rcases Bool.eq_false_or_eq_true g.is_odd_number_of_tails with hodd | hodd
    · rw [add_pin_cuts_odd p g hodd] at hsh
      simp only [List.mem_cons] at hsh
      rcases hsh with rfl | rfl | hsh
      · rfl
      · rfl
      · obtain ⟨c, hc⟩ := pin_cut_for_loop_mem p g _ _ _ _ _ sh hsh
        rw [hc]
        rfl
    · rw [add_pin_cuts_even p g hodd] at hsh
      obtain ⟨c, hc⟩ := pin_cut_for_loop_mem p g _ _ _ _ _ sh hsh
      rw [hc]
      rfl

/-- Witness for C5 at `pEven` with the tail board drawn at `y0 = 100`. -/
theorem C5_witness :
    calc_and_check_parameters pEven = .ok gEven ∧
    0 < pEven.tail_bit_diameter ∧ 0 < pEven.tail_thickness ∧
    ((∀ sh ∈ (add_tail_cuts pEven gEven 100).1, ∃ xa xb : ℝ,
      sh = CutShape.box xa (100 - pEven.tail_bit_diameter * 0.55) xb
        (100 + pEven.tail_thickness + pEven.tail_bit_diameter * 1.0)
        .INTERIOR (some pEven.pin_thickness)) ∧
    (∀ sh ∈ (add_pin_cuts pEven gEven).1,
      sh.depthOf = some pEven.tail_thickness)) :=
  ⟨calc_pEven, by norm_num [pEven], by norm_num [pEven],
   C5_buffers_and_depths pEven gEven 100 calc_pEven
     (by norm_num [pEven]) (by norm_num [pEven])⟩

/-- The even-branch tail loop emits exactly its iteration count of
rectangles. -/
theorem tail_cut_for_loop_length (p : JointParameters) (g : ResolvedGeometry)
    (start_y end_y : ℝ) (k : ℕ) (x : ℝ) :
    (tail_cut_for_loop p g start_y end_y k x).length = k := by
  rw [tail_cut_for_loop_eq_range]
  simp

/-- Every `add_box` result is a box with the same routing and depth. -/
theorem add_box_shape (x0 y0 x1 y1 : ℝ) (rt : RoutingType) (d : Option ℝ) :
    ∃ xa ya xb yb : ℝ,
      add_box x0 y0 x1 y1 rt d = CutShape.box xa ya xb yb rt d :=
  ⟨_, _, _, _, rfl⟩

/-- C10: for every validated parameter set with at least one tail, the
tail board emits exactly `num_tails + 1` INTERIOR rectangles (two edge
halves plus `num_tails − 1` interior ones when even; `num_tails + 1`
iterations of the while loop, whose step is positive, when odd). -/
theorem C10_tail_cut_count (p : JointParameters) (g : ResolvedGeometry)
    (y0 : ℝ) (h : calc_and_check_parameters p = .ok g)
    (hn : 1 ≤ p.num_tails) (hwt : 0 < p.width_tails) :
    0 < g.individual_width_of_tail_cut + p.width_tails ∧
    (add_tail_cuts p g y0).1.length = p.num_tails.toNat + 1 ∧
    ∀ sh ∈ (add_tail_cuts p g y0).1, ∃ xa ya xb yb : ℝ,
      sh = CutShape.box xa ya xb yb .INTERIOR (some p.pin_thickness) := by
  obtain ⟨hu, hs, hc, hnz, hi, hg⟩ := calc_ok_inv h
  have hgind : g.individual_width_of_tail_cut =
      individual_width_of_tail_cut p := by rw [hg]
  have hgodd : g.is_odd_number_of_tails = is_odd_number_of_tails p := by
    rw [hg]
  have hind : 0 < g.individual_width_of_tail_cut := by
    rw [hgind]
    exact lt_of_lt_of_le hu hi
  have hstep : 0 < g.individual_width_of_tail_cut + p.width_tails := by
    linarith
  refine ⟨hstep, ?_, ?_⟩
  · rcases Bool.eq_false_or_eq_true g.is_odd_number_of_tails with hodd | hodd
    · -- odd branch: the while loop runs exactly num_tails + 1 times
      have hoddp : is_odd_number_of_tails p = true := by
        rw [← hgodd]
        exact hodd
      have hntc : num_tail_cuts p = p.num_tails + 1 := by
        unfold num_tail_cuts
        rw [hoddp]
        simp
      have hNN : ((p.num_tails.toNat : ℕ) : ℝ) = (p.num_tails : ℝ) := by
        exact_mod_cast Int.toNat_of_nonneg (by omega : (0 : ℤ) ≤ p.num_tails)
      have hN1 : (0 : ℝ) < (p.num_tails : ℝ) + 1 := by
        have h1 : (1 : ℝ) ≤ (p.num_tails : ℝ) := by exact_mod_cast hn
        linarith
      have hcum : cumulative_tail_width p =
          ((p.num_tails : ℝ) + 1) * p.width_tails := by
        unfold cumulative_tail_width
        rw [hntc]
        push_cast
        ring
      have hWlt : ((p.num_tails : ℝ) + 1) * p.width_tails < p.width := by
        rw [← hcum]
        exact hc
      have hW0 : 0 < p.width := lt_trans (mul_pos hN1 hwt) hWlt
      have hstep_eq : g.individual_width_of_tail_cut + p.width_tails =
          p.width / ((p.num_tails : ℝ) + 1) := by
        rw [hgind]
        unfold individual_width_of_tail_cut
        rw [hcum, hntc]
        push_cast
        field_simp
        ring
      have hwtstep : p.width_tails < p.width / ((p.num_tails : ℝ) + 1) := by
        rw [lt_div_iff₀ hN1]
        nlinarith
      have hgo : ∀ i : ℕ, i < p.num_tails.toNat + 1 →
          p.width_tails / 2 +
            (i : ℝ) * (g.individual_width_of_tail_cut + p.width_tails) <
            p.width := by
        intro i hi2
        rw [hstep_eq]
        have hiN : (i : ℝ) ≤ (p.num_tails : ℝ) := by
          rw [← hNN]
          exact_mod_cast Nat.lt_succ_iff.mp hi2
        have hdiv : 0 < p.width / ((p.num_tails : ℝ) + 1) := div_pos hW0 hN1
        have h1 : (i : ℝ) * (p.width / ((p.num_tails : ℝ) + 1)) ≤
            (p.num_tails : ℝ) * (p.width / ((p.num_tails : ℝ) + 1)) :=
          mul_le_mul_of_nonneg_right hiN hdiv.le
        have hNW : (p.num_tails : ℝ) * (p.width / ((p.num_tails : ℝ) + 1)) =
            p.width - p.width / ((p.num_tails : ℝ) + 1) := by
          field_simp
          ring
        linarith
      have hstop : p.width ≤ p.width_tails / 2 +
          ((p.num_tails.toNat + 1 : ℕ) : ℝ) *
            (g.individual_width_of_tail_cut + p.width_tails) := by
        rw [hstep_eq]
        push_cast
        rw [hNN, mul_div_cancel₀ _ (ne_of_gt hN1)]
        linarith
      rw [add_tail_cuts_odd p g y0 hodd]
      rw [tail_cut_while_loop_eq_range p g _ _ (p.num_tails.toNat + 1)
        (p.num_tails.toNat + 2) (p.width_tails / 2) (by omega) hgo hstop]
      simp
    · rw [add_tail_cuts_even p g y0 hodd]
      simp only [List.length_cons, tail_cut_for_loop_length]
      omega
  · intro sh hsh
    rcases Bool.eq_false_or_eq_true g.is_odd_number_of_tails with hodd | hodd
    · rw [add_tail_cuts_odd p g y0 hodd] at hsh
      obtain ⟨c, hcc⟩ := tail_cut_while_loop_mem p g _ _ _ _ sh hsh
      rw [hcc]
      exact add_box_shape _ _ _ _ _ _
    · rw [add_tail_cuts_even p g y0 hodd] at hsh
      simp only [List.mem_cons] at hsh
      rcases hsh with rfl | rfl | hsh
      · exact add_box_shape _ _ _ _ _ _
      · exact add_box_shape _ _ _ _ _ _
      · obtain ⟨c, hcc⟩ := tail_cut_for_loop_mem p g _ _ _ _ sh hsh
        rw [hcc]
        exact add_box_shape _ _ _ _ _ _

/-- Witness for C10 at `pOdd` (odd branch, one tail, two rectangles). -/
theorem C10_witness :
    calc_and_check_parameters pOdd = .ok gOdd ∧
    1 ≤ pOdd.num_tails ∧ 0 < pOdd.width_tails ∧
    (add_tail_cuts pOdd gOdd 100).1.length = pOdd.num_tails.toNat + 1 :=
  ⟨calc_pOdd, by decide, by norm_num [pOdd],
   (C10_tail_cut_count pOdd gOdd 100 calc_pOdd (by decide)
     (by norm_num [pOdd])).2.1⟩

/-- The horizontal center of a loop trapezoid is its running `x`. -/
theorem pin_trapezoid_centerX (p : JointParameters) (g : ResolvedGeometry)
    (start_y end_y delta_x c : ℝ) :
    (pin_trapezoid p g start_y end_y delta_x c).centerX = c := by
  simp only [pin_trapezoid, add_polygon, CutShape.centerX]
  ring

/-- Reading `getD` on a mapped range evaluates the function at the index. -/
theorem getD_map_range {α : Type} (k i : ℕ) (f : ℕ → α) (d : α)
    (h : i < k) : ((List.range k).map f).getD i d = f i := by
  rw [List.getD_eq_getElem _ _ (by simpa using h)]
  simp

/-- C6: with an even number of tails, the horizontal centers of the
pin-board trapezoids are symmetric about half the board width: the `i`-th
and the `(num_tails − 1 − i)`-th centers sum to the board width. -/
theorem C6_even_centers_symmetric (p : JointParameters)
    (g : ResolvedGeometry) (h : calc_and_check_parameters p = .ok g)
    (heven : p.num_tails % 2 = 0) (hn : 1 ≤ p.num_tails) :
    ∀ i : ℕ, i < p.num_tails.toNat →
      ((add_pin_cuts p g).1.getD i (CutShape.text 0 0)).centerX +
        ((add_pin_cuts p g).1.getD (p.num_tails.toNat - 1 - i)
          (CutShape.text 0 0)).centerX = p.width := by
  obtain ⟨hu, hs, hc, hnz, hi, hg⟩ := calc_ok_inv h
  have hgind : g.individual_width_of_tail_cut =
      individual_width_of_tail_cut p := by rw [hg]
  have hgodd : g.is_odd_number_of_tails = is_odd_number_of_tails p := by
    rw [hg]
  have hoddp : is_odd_number_of_tails p = false := by
    unfold is_odd_number_of_tails
    rw [heven]
    decide
  have hodd : g.is_odd_number_of_tails = false := by rw [hgodd, hoddp]
  have hntc : num_tail_cuts p = p.num_tails := by
    unfold num_tail_cuts
    rw [hoddp]
    simp
  have hNN : ((p.num_tails.toNat : ℕ) : ℝ) = (p.num_tails : ℝ) := by
    exact_mod_cast Int.toNat_of_nonneg (by omega : (0 : ℤ) ≤ p.num_tails)
  have hN0 : (0 : ℝ) < (p.num_tails : ℝ) := by
    have h1 : (1 : ℝ) ≤ (p.num_tails : ℝ) := by exact_mod_cast hn
    linarith
  have hNne : (p.num_tails : ℝ) ≠ 0 := ne_of_gt hN0
  have hindval : g.individual_width_of_tail_cut =
      (p.width - (p.num_tails : ℝ) * p.width_tails) / (p.num_tails : ℝ) := by
    rw [hgind]
    unfold individual_width_of_tail_cut cumulative_tail_width
    rw [hntc]
  intro i hilt
  have hibound2 : p.num_tails.toNat - 1 - i < p.num_tails.toNat := by omega
  have hcast : ((p.num_tails.toNat - 1 - i : ℕ) : ℝ) =
      (p.num_tails : ℝ) - 1 - (i : ℝ) := by
    have heq : p.num_tails.toNat - 1 - i = p.num_tails.toNat - (1 + i) := by
      omega
    rw [heq, Nat.cast_sub (by omega)]
    push_cast [hNN]
    ring
  rw [add_pin_cuts_even p g hodd]
  dsimp only
  rw [pin_cut_for_loop_eq_range]
  rw [getD_map_range _ _ _ _ hilt, getD_map_range _ _ _ _ hibound2]
  rw [pin_trapezoid_centerX, pin_trapezoid_centerX, hindval, hcast]
  field_simp
  ring

/-- Witness for C6 at `pEven` (two tails). -/
theorem C6_witness :
    calc_and_check_parameters pEven = .ok gEven ∧
    pEven.num_tails % 2 = 0 ∧ 1 ≤ pEven.num_tails ∧
    (∀ i : ℕ, i < pEven.num_tails.toNat →
      ((add_pin_cuts pEven gEven).1.getD i (CutShape.text 0 0)).centerX +
        ((add_pin_cuts pEven gEven).1.getD (pEven.num_tails.toNat - 1 - i)
          (CutShape.text 0 0)).centerX = pEven.width) :=
  ⟨calc_pEven, by decide, by decide,
   C6_even_centers_symmetric pEven gEven calc_pEven (by decide) (by decide)⟩

/-- Top edge height of a loop trapezoid. -/
theorem pin_trapezoid_topY (p : JointParameters) (g : ResolvedGeometry)
    (start_y end_y delta_x c : ℝ) :
    (pin_trapezoid p g start_y end_y delta_x c).topY = start_y := rfl

/-- Bottom edge height of a loop trapezoid. -/
theorem pin_trapezoid_bottomY (p : JointParameters) (g : ResolvedGeometry)
    (start_y end_y delta_x c : ℝ) :
    (pin_trapezoid p g start_y end_y delta_x c).bottomY = end_y := rfl

/-- Top edge width of a loop trapezoid: the smaller tail width shrunk by
`delta_x` on both sides. -/
theorem pin_trapezoid_topEdgeWidth (p : JointParameters)
    (g : ResolvedGeometry) (start_y end_y delta_x c : ℝ) :
    (pin_trapezoid p g start_y end_y delta_x c).topEdgeWidth =
      g.smaller_width_tails - 2 * delta_x := by
  simp only [pin_trapezoid, add_polygon, CutShape.topEdgeWidth]
  ring

/-- Bottom edge width of a loop trapezoid: the tail width grown by
`delta_x` on both sides. -/
theorem pin_trapezoid_bottomEdgeWidth (p : JointParameters)
    (g : ResolvedGeometry) (start_y end_y delta_x c : ℝ) :
    (pin_trapezoid p g start_y end_y delta_x c).bottomEdgeWidth =
      p.width_tails + 2 * delta_x := by
  simp only [pin_trapezoid, add_polygon, CutShape.bottomEdgeWidth]
  ring

/-- Interpolated width of a loop trapezoid at any height. -/
theorem pin_trapezoid_widthAt (p : JointParameters) (g : ResolvedGeometry)
    (start_y end_y delta_x c y : ℝ) (hne : end_y - start_y ≠ 0) :
    (pin_trapezoid p g start_y end_y delta_x c).widthAt y =
      (g.smaller_width_tails - 2 * delta_x) +
        ((p.width_tails - g.smaller_width_tails) + 4 * delta_x) *
          ((y - start_y) / (end_y - start_y)) := by
  simp only [pin_trapezoid, add_polygon, CutShape.widthAt, edgeX]
  field_simp
  ring

/-- C4 (amended): each full pocket trapezoid has its top edge at
`y = −overcut_buffer` with width `smaller_tail_width − 2·delta_x` and its
bottom edge at `y = pin_thickness + overcut_buffer` with width
`tail_width + 2·delta_x`, where `delta_x = overcut_buffer ×
tan_cut_angle`; consequently its interpolated width at the board surface
`y = 0` is exactly `smaller_tail_width` and at `y = pin_thickness`
exactly `tail_width` — the taper continues at the cut angle through both
overcut regions. -/
theorem C4_pocket_trapezoid_geometry (p : JointParameters)
    (g : ResolvedGeometry) (h : calc_and_check_parameters p = .ok g)
    (hpt : 0 < p.pin_thickness) (hpbd : 0 < p.pin_bit_diameter) :
    ∀ (k : ℕ) (x : ℝ),
      ∀ sh ∈ pin_cut_for_loop p g
        (-(p.pin_bit_diameter * OVERCUTTING_BUFFER_FACTOR))
        (p.pin_thickness + p.pin_bit_diameter * OVERCUTTING_BUFFER_FACTOR)
        (p.pin_bit_diameter * OVERCUTTING_BUFFER_FACTOR * g.tan_cut_angle)
        k x,
      sh.topY = -(p.pin_bit_diameter * OVERCUTTING_BUFFER_FACTOR) ∧
      sh.bottomY =
        p.pin_thickness + p.pin_bit_diameter * OVERCUTTING_BUFFER_FACTOR ∧
      sh.topEdgeWidth = g.smaller_width_tails -
        2 * (p.pin_bit_diameter * OVERCUTTING_BUFFER_FACTOR *
          g.tan_cut_angle) ∧
      sh.bottomEdgeWidth = p.width_tails +
        2 * (p.pin_bit_diameter * OVERCUTTING_BUFFER_FACTOR *
          g.tan_cut_angle) ∧
      sh.widthAt 0 = g.smaller_width_tails ∧
      sh.widthAt p.pin_thickness = p.width_tails := by
  obtain ⟨hu, hs, hc, hnz, hi, hg⟩ := calc_ok_inv h
  have hb : 0 < p.pin_bit_diameter * OVERCUTTING_BUFFER_FACTOR :=
    mul_pos hpbd (by norm_num [OVERCUTTING_BUFFER_FACTOR])
  have hne : (p.pin_thickness +
        p.pin_bit_diameter * OVERCUTTING_BUFFER_FACTOR) -
      -(p.pin_bit_diameter * OVERCUTTING_BUFFER_FACTOR) ≠ 0 :=
    ne_of_gt (by linarith)
  have hsm : g.smaller_width_tails =
      p.width_tails - 2 * g.tan_cut_angle * p.pin_thickness := by
    rw [hg]
    show smaller_width_tails p =
      p.width_tails - 2 * tan_cut_angle p * p.pin_thickness
    unfold smaller_width_tails calculate_upper_tail_diameter
    ring
  intro k x sh hsh
  obtain ⟨c, hcc⟩ := pin_cut_for_loop_mem p g _ _ _ _ _ sh hsh
  subst hcc
  refine ⟨pin_trapezoid_topY p g _ _ _ c, pin_trapezoid_bottomY p g _ _ _ c,
    pin_trapezoid_topEdgeWidth p g _ _ _ c,
    pin_trapezoid_bottomEdgeWidth p g _ _ _ c, ?_, ?_⟩
  · rw [pin_trapezoid_widthAt p g _ _ _ c 0 hne, hsm]
    field_simp
    ring
  · rw [pin_trapezoid_widthAt p g _ _ _ c p.pin_thickness hne, hsm]
    field_simp
    ring

/-- Counterexample to C4 as stated: at the validated scenario `pEven`
the edge of the first pocket trapezoid at `y = −overcut_buffer` has width
13.8, not the claimed `smaller_tail_width` = 16 (the polygon keeps
tapering through the buffer, so the edge at the buffered height is
narrower than the narrow width of the tail, which is only reached at the
board surface `y = 0`). -/
theorem C4_counterexample :
    calc_and_check_parameters pEven = .ok gEven ∧
    ((add_pin_cuts pEven gEven).1.getD 0 (CutShape.text 0 0)).topY =
      -(pEven.pin_bit_diameter * 0.55) ∧
    ((add_pin_cuts pEven gEven).1.getD 0
      (CutShape.text 0 0)).topEdgeWidth = 69 / 5 ∧
    gEven.smaller_width_tails = 16 ∧
    (69 / 5 : ℝ) ≠ 16 := by
  refine ⟨calc_pEven, ?_, ?_, rfl, by norm_num⟩
  · rw [add_pin_cuts_even pEven gEven rfl]
    dsimp only
    rw [pin_cut_for_loop_eq_range]
    rw [getD_map_range _ _ _ _ (by decide : 0 < pEven.num_tails.toNat)]
    rw [pin_trapezoid_topY]
    norm_num [pEven, OVERCUTTING_BUFFER_FACTOR]
  · rw [add_pin_cuts_even pEven gEven rfl]
    dsimp only
    rw [pin_cut_for_loop_eq_range]
    rw [getD_map_range _ _ _ _ (by decide : 0 < pEven.num_tails.toNat)]
    rw [pin_trapezoid_topEdgeWidth]
    norm_num [pEven, gEven, OVERCUTTING_BUFFER_FACTOR]

/-- Witness for C4 at `pEven`, on the trapezoid emitted by a one-step
loop started at `x = 0`. -/
theorem C4_witness :
    calc_and_check_parameters pEven = .ok gEven ∧
    0 < pEven.pin_thickness ∧ 0 < pEven.pin_bit_diameter ∧
    ((pin_trapezoid pEven gEven
        (-(pEven.pin_bit_diameter * OVERCUTTING_BUFFER_FACTOR))
        (pEven.pin_thickness +
          pEven.pin_bit_diameter * OVERCUTTING_BUFFER_FACTOR)
        (pEven.pin_bit_diameter * OVERCUTTING_BUFFER_FACTOR *
          gEven.tan_cut_angle) 0).widthAt 0 =
      gEven.smaller_width_tails ∧
    (pin_trapezoid pEven gEven
        (-(pEven.pin_bit_diameter * OVERCUTTING_BUFFER_FACTOR))
        (pEven.pin_thickness +
          pEven.pin_bit_diameter * OVERCUTTING_BUFFER_FACTOR)
        (pEven.pin_bit_diameter * OVERCUTTING_BUFFER_FACTOR *
          gEven.tan_cut_angle) 0).widthAt pEven.pin_thickness =
      pEven.width_tails) :=
  ⟨calc_pEven, by norm_num [pEven], by norm_num [pEven],
   (fun hconj => ⟨hconj.2.2.2.2.1, hconj.2.2.2.2.2⟩)
     (C4_pocket_trapezoid_geometry pEven gEven calc_pEven
        (by norm_num [pEven]) (by norm_num [pEven]) 1 0
        (pin_trapezoid pEven gEven
          (-(pEven.pin_bit_diameter * OVERCUTTING_BUFFER_FACTOR))
          (pEven.pin_thickness +
            pEven.pin_bit_diameter * OVERCUTTING_BUFFER_FACTOR)
          (pEven.pin_bit_diameter * OVERCUTTING_BUFFER_FACTOR *
            gEven.tan_cut_angle) 0)
        (List.Mem.head _))⟩

/-- For a positive angle in degrees, the radian measure is positive. -/
theorem radians_pos {a : ℝ} (h0 : 0 < a) : 0 < radians a := by
  unfold radians
  apply div_pos (mul_pos h0 Real.pi_pos)
  norm_num

/-- For an angle below 90 degrees, the radian measure is below `π / 2`. -/
theorem radians_lt_pi_div_two {a : ℝ} (h90 : a < 90) :
    radians a < Real.pi / 2 := by
  unfold radians
  linarith [mul_pos (sub_pos.mpr h90) Real.pi_pos]

/-- The tangent of an angle strictly between 0 and 90 degrees is
positive. -/
theorem tan_radians_pos {a : ℝ} (h0 : 0 < a) (h90 : a < 90) :
    0 < Real.tan (radians a) :=
  Real.tan_pos_of_pos_of_lt_pi_div_two (radians_pos h0)
    (radians_lt_pi_div_two h90)

/-- One-step reductions of the pin-cut loop. -/
theorem pin_cut_for_loop_one (p : JointParameters) (g : ResolvedGeometry)
    (start_y end_y delta_x x : ℝ) :
    pin_cut_for_loop p g start_y end_y delta_x 1 x =
      [pin_trapezoid p g start_y end_y delta_x x] := rfl

/-- Two affine edges sharing a y-range, with the left one strictly left
of the right one at both endpoints, stay strictly ordered at every height
in the range. -/
theorem edgeX_lt_edgeX (y0 y1 a0 a1 b0 b1 y : ℝ)
    (hy01 : y0 < y1) (hy0 : y0 ≤ y) (hy1 : y ≤ y1)
    (h0 : a0 < b0) (h1 : a1 < b1) :
    edgeX y0 a0 y1 a1 y < edgeX y0 b0 y1 b1 y := by
  have ht0 : 0 ≤ (y - y0) / (y1 - y0) :=
    div_nonneg (by linarith) (by linarith)
  have ht1 : (y - y0) / (y1 - y0) ≤ 1 := by
    rw [div_le_one (by linarith)]
    linarith
  unfold edgeX
  rcases le_or_lt ((y - y0) / (y1 - y0)) (1 / 2) with hhalf | hhalf
  · linarith [mul_pos (sub_pos.mpr h0)
      (by linarith : (0 : ℝ) < 1 - (y - y0) / (y1 - y0)),
      mul_nonneg ht0 (sub_pos.mpr h1).le]
  · linarith [mul_pos (sub_pos.mpr h1)
      (by linarith : (0 : ℝ) < (y - y0) / (y1 - y0)),
      mul_nonneg (by linarith : (0 : ℝ) ≤ 1 - (y - y0) / (y1 - y0))
        (sub_pos.mpr h0).le]

set_option maxHeartbeats 2000000 in
/-- C8 (amended): for a validated single-tail parameter set, the pin
board emits exactly the left half-tail trapezoid, the right half-tail
trapezoid (both clipped by the 2mm horizontal buffer) and one full
trapezoid, and the tail board emits exactly two rectangles; the two
tail-board rectangles never overlap, and — provided `2·delta_x` is
smaller than the inter-tail cut width — the full pin-board trapezoid
overlaps neither adjacent half-tail region (the proviso is necessary:
validation does not bound `delta_x`, see the counterexample). -/
theorem C8_single_tail_layout (p : JointParameters) (g : ResolvedGeometry)
    (y0 : ℝ) (h : calc_and_check_parameters p = .ok g)
    (hone : p.num_tails = 1)
    (ha0 : 0 < p.cut_angle) (ha90 : p.cut_angle < 90)
    (hpt : 0 < p.pin_thickness) (hpbd : 0 < p.pin_bit_diameter)
    (hwt : 0 < p.width_tails) (htbd : 0 < p.tail_bit_diameter)
    (htt : 0 < p.tail_thickness) :
    (add_pin_cuts p g).1 =
      [add_polygon p
         (-HORIZONTAL_BUFFER,
          -(p.pin_bit_diameter * OVERCUTTING_BUFFER_FACTOR))
         (g.smaller_width_tails / 2 -
            p.pin_bit_diameter * OVERCUTTING_BUFFER_FACTOR * g.tan_cut_angle,
          -(p.pin_bit_diameter * OVERCUTTING_BUFFER_FACTOR))
         (p.width_tails / 2 +
            p.pin_bit_diameter * OVERCUTTING_BUFFER_FACTOR * g.tan_cut_angle,
          p.pin_thickness + p.pin_bit_diameter * OVERCUTTING_BUFFER_FACTOR)
         (-HORIZONTAL_BUFFER,
          p.pin_thickness + p.pin_bit_diameter * OVERCUTTING_BUFFER_FACTOR),
       add_polygon p
         (p.width - g.smaller_width_tails / 2 +
            p.pin_bit_diameter * OVERCUTTING_BUFFER_FACTOR * g.tan_cut_angle,
          -(p.pin_bit_diameter * OVERCUTTING_BUFFER_FACTOR))
         (p.width + HORIZONTAL_BUFFER,
          -(p.pin_bit_diameter * OVERCUTTING_BUFFER_FACTOR))
         (p.width + HORIZONTAL_BUFFER,
          p.pin_thickness + p.pin_bit_diameter * OVERCUTTING_BUFFER_FACTOR)
         (p.width - p.width_tails / 2 -
            p.pin_bit_diameter * OVERCUTTING_BUFFER_FACTOR * g.tan_cut_angle,
          p.pin_thickness + p.pin_bit_diameter * OVERCUTTING_BUFFER_FACTOR),
       pin_trapezoid p g
         (-(p.pin_bit_diameter * OVERCUTTING_BUFFER_FACTOR))
         (p.pin_thickness + p.pin_bit_diameter * OVERCUTTING_BUFFER_FACTOR)
         (p.pin_bit_diameter * OVERCUTTING_BUFFER_FACTOR * g.tan_cut_angle)
         (p.width_tails + g.individual_width_of_tail_cut)] ∧
    (add_tail_cuts p g y0).1 =
      [tail_cut_box p g
         (y0 - p.tail_bit_diameter * OVERCUTTING_BUFFER_FACTOR)
         (y0 + p.tail_thickness +
           p.tail_bit_diameter * LOWER_OVERCUTTING_BUFFER_DOVETAIL_BIT_FACTOR)
         (p.width_tails / 2),
       tail_cut_box p g
         (y0 - p.tail_bit_diameter * OVERCUTTING_BUFFER_FACTOR)
         (y0 + p.tail_thickness +
           p.tail_bit_diameter * LOWER_OVERCUTTING_BUFFER_DOVETAIL_BIT_FACTOR)
         (p.width_tails / 2 +
           (g.individual_width_of_tail_cut + p.width_tails))] ∧
    (∀ q : ℝ × ℝ,
      ¬ ((tail_cut_box p g
            (y0 - p.tail_bit_diameter * OVERCUTTING_BUFFER_FACTOR)
            (y0 + p.tail_thickness +
              p.tail_bit_diameter *
                LOWER_OVERCUTTING_BUFFER_DOVETAIL_BIT_FACTOR)
            (p.width_tails / 2)).containsPt q ∧
         (tail_cut_box p g
            (y0 - p.tail_bit_diameter * OVERCUTTING_BUFFER_FACTOR)
            (y0 + p.tail_thickness +
              p.tail_bit_diameter *
                LOWER_OVERCUTTING_BUFFER_DOVETAIL_BIT_FACTOR)
            (p.width_tails / 2 +
              (g.individual_width_of_tail_cut +
                p.width_tails))).containsPt q)) ∧
    (2 * (p.pin_bit_diameter * OVERCUTTING_BUFFER_FACTOR * g.tan_cut_angle) <
        g.individual_width_of_tail_cut →
      (∀ q : ℝ × ℝ,
        ¬ ((add_polygon p
              (-HORIZONTAL_BUFFER,
               -(p.pin_bit_diameter * OVERCUTTING_BUFFER_FACTOR))
              (g.smaller_width_tails / 2 -
                 p.pin_bit_diameter * OVERCUTTING_BUFFER_FACTOR *
                   g.tan_cut_angle,
               -(p.pin_bit_diameter * OVERCUTTING_BUFFER_FACTOR))
              (p.width_tails / 2 +
                 p.pin_bit_diameter * OVERCUTTING_BUFFER_FACTOR *
                   g.tan_cut_angle,
               p.pin_thickness +
                 p.pin_bit_diameter * OVERCUTTING_BUFFER_FACTOR)
              (-HORIZONTAL_BUFFER,
               p.pin_thickness +
                 p.pin_bit_diameter *
                   OVERCUTTING_BUFFER_FACTOR)).containsPt q ∧
           (pin_trapezoid p g
              (-(p.pin_bit_diameter * OVERCUTTING_BUFFER_FACTOR))
              (p.pin_thickness +
                p.pin_bit_diameter * OVERCUTTING_BUFFER_FACTOR)
              (p.pin_bit_diameter * OVERCUTTING_BUFFER_FACTOR *
                g.tan_cut_angle)
              (p.width_tails +
                g.individual_width_of_tail_cut)).containsPt q)) ∧
      (∀ q : ℝ × ℝ,
        ¬ ((pin_trapezoid p g
              (-(p.pin_bit_diameter * OVERCUTTING_BUFFER_FACTOR))
              (p.pin_thickness +
                p.pin_bit_diameter * OVERCUTTING_BUFFER_FACTOR)
              (p.pin_bit_diameter * OVERCUTTING_BUFFER_FACTOR *
                g.tan_cut_angle)
              (p.width_tails +
                g.individual_width_of_tail_cut)).containsPt q ∧
           (add_polygon p
              (p.width - g.smaller_width_tails / 2 +
                 p.pin_bit_diameter * OVERCUTTING_BUFFER_FACTOR *
                   g.tan_cut_angle,
               -(p.pin_bit_diameter * OVERCUTTING_BUFFER_FACTOR))
              (p.width + HORIZONTAL_BUFFER,
               -(p.pin_bit_diameter * OVERCUTTING_BUFFER_FACTOR))
              (p.width + HORIZONTAL_BUFFER,
               p.pin_thickness +
                 p.pin_bit_diameter * OVERCUTTING_BUFFER_FACTOR)
              (p.width - p.width_tails / 2 -
                 p.pin_bit_diameter * OVERCUTTING_BUFFER_FACTOR *
                   g.tan_cut_angle,
               p.pin_thickness +
                 p.pin_bit_diameter *
                   OVERCUTTING_BUFFER_FACTOR)).containsPt q))) := by
  obtain ⟨hu, hs, hc, hnz, hi, hg⟩ := calc_ok_inv h
  have hgind : g.individual_width_of_tail_cut =
      individual_width_of_tail_cut p := by rw [hg]
  have hgodd : g.is_odd_number_of_tails = is_odd_number_of_tails p := by
    rw [hg]
  have hgtan : g.tan_cut_angle = tan_cut_angle p := by rw [hg]
  have hoddp : is_odd_number_of_tails p = true := by
    unfold is_odd_number_of_tails
    rw [hone]
    decide
  have hodd : g.is_odd_number_of_tails = true := by rw [hgodd, hoddp]
  have h1nat : p.num_tails.toNat = 1 := by rw [hone]; rfl
  have hntc : num_tail_cuts p = 2 := by
    unfold num_tail_cuts
    rw [hoddp, hone]
    simp
  have hcum : cumulative_tail_width p = 2 * p.width_tails := by
    unfold cumulative_tail_width
    rw [hntc]
    push_cast
    ring
  have hcw : 2 * p.width_tails < p.width := by rw [← hcum]; exact hc
  have hW0 : 0 < p.width := by linarith
  have hindval : g.individual_width_of_tail_cut =
      (p.width - 2 * p.width_tails) / 2 := by
    rw [hgind]
    unfold individual_width_of_tail_cut
    rw [hcum, hntc]
    norm_num
  have hind0 : 0 < g.individual_width_of_tail_cut := by
    rw [hgind]
    exact lt_of_lt_of_le hu hi
  have hWsum : p.width =
      2 * g.individual_width_of_tail_cut + 2 * p.width_tails := by
    rw [hindval]
    ring
  have ht0 : 0 < g.tan_cut_angle := by
    rw [hgtan]
    exact tan_radians_pos ha0 ha90
  have hb : 0 < p.pin_bit_diameter * OVERCUTTING_BUFFER_FACTOR :=
    mul_pos hpbd (by norm_num [OVERCUTTING_BUFFER_FACTOR])
  have hdx0 : 0 < p.pin_bit_diameter * OVERCUTTING_BUFFER_FACTOR *
      g.tan_cut_angle := mul_pos hb ht0
  have hsm : g.smaller_width_tails =
      p.width_tails - 2 * g.tan_cut_angle * p.pin_thickness := by
    rw [hg]
    show smaller_width_tails p =
      p.width_tails - 2 * tan_cut_angle p * p.pin_thickness
    unfold smaller_width_tails calculate_upper_tail_diameter
    ring
  have hslt : g.smaller_width_tails < p.width_tails := by
    rw [hsm]
    nlinarith
  have hsy_lt_ey : -(p.pin_bit_diameter * OVERCUTTING_BUFFER_FACTOR) <
      p.pin_thickness + p.pin_bit_diameter * OVERCUTTING_BUFFER_FACTOR := by
    linarith
  have htsy : y0 - p.tail_bit_diameter * OVERCUTTING_BUFFER_FACTOR ≤
      y0 + p.tail_thickness +
        p.tail_bit_diameter * LOWER_OVERCUTTING_BUFFER_DOVETAIL_BIT_FACTOR := by
    rw [show OVERCUTTING_BUFFER_FACTOR = 0.55 from rfl,
      show LOWER_OVERCUTTING_BUFFER_DOVETAIL_BIT_FACTOR = 1.0 from rfl]
    nlinarith
  have hstep_eq : g.individual_width_of_tail_cut + p.width_tails =
      p.width / 2 := by
    rw [hindval]
    ring
  have htail : (add_tail_cuts p g y0).1 =
      [tail_cut_box p g
         (y0 - p.tail_bit_diameter * OVERCUTTING_BUFFER_FACTOR)
         (y0 + p.tail_thickness +
           p.tail_bit_diameter * LOWER_OVERCUTTING_BUFFER_DOVETAIL_BIT_FACTOR)
         (p.width_tails / 2),
       tail_cut_box p g
         (y0 - p.tail_bit_diameter * OVERCUTTING_BUFFER_FACTOR)
         (y0 + p.tail_thickness +
           p.tail_bit_diameter * LOWER_OVERCUTTING_BUFFER_DOVETAIL_BIT_FACTOR)
         (p.width_tails / 2 +
           (g.individual_width_of_tail_cut + p.width_tails))] := by
    rw [add_tail_cuts_odd p g y0 hodd]
    dsimp only
    rw [h1nat]
    rw [tail_cut_while_loop_eq_range p g _ _ 2 3 (p.width_tails / 2)
      (by omega) ?hgo ?hstop]
    · rw [show List.range 2 = [0, 1] from rfl]
      simp
    case hgo =>
      intro i hi2
      have hi1 : (i : ℝ) ≤ 1 := by
        exact_mod_cast Nat.lt_succ_iff.mp hi2
      rw [hstep_eq]
      nlinarith [mul_le_mul_of_nonneg_right hi1 (half_pos hW0).le]
    case hstop =>
      rw [hstep_eq]
      push_cast
      linarith
  refine ⟨?_, htail, ?_, ?_⟩
  · rw [add_pin_cuts_odd p g hodd]
    dsimp only
    rw [h1nat, pin_cut_for_loop_one]
  · intro q hq
    rw [tail_cut_box_eq p g _ _ _ htsy, tail_cut_box_eq p g _ _ _ htsy]
      at hq
    obtain ⟨hq0, hq1⟩ := hq
    simp only [CutShape.containsPt] at hq0 hq1
    have hxle : ∀ c : ℝ, c ≤ c + g.individual_width_of_tail_cut :=
      fun c => by linarith
    rw [min_eq_left (hxle _), max_eq_right (hxle _)] at hq0
    rw [min_eq_left (hxle _), max_eq_right (hxle _)] at hq1
    have h01 := hq0.2.1
    have h10 := hq1.1
    linarith
  · intro h2dx
    constructor
    · intro q hq
      obtain ⟨hqL, hqF⟩ := hq
      simp only [add_polygon, pin_trapezoid, CutShape.containsPt] at hqL hqF
      have hlt := edgeX_lt_edgeX
        (-(p.pin_bit_diameter * OVERCUTTING_BUFFER_FACTOR))
        (p.pin_thickness + p.pin_bit_diameter * OVERCUTTING_BUFFER_FACTOR)
        (g.smaller_width_tails / 2 -
          p.pin_bit_diameter * OVERCUTTING_BUFFER_FACTOR * g.tan_cut_angle)
        (p.width_tails / 2 +
          p.pin_bit_diameter * OVERCUTTING_BUFFER_FACTOR * g.tan_cut_angle)
        (p.width_tails + g.individual_width_of_tail_cut -
          g.smaller_width_tails / 2 +
          p.pin_bit_diameter * OVERCUTTING_BUFFER_FACTOR * g.tan_cut_angle)
        (p.width_tails + g.individual_width_of_tail_cut -
          p.width_tails / 2 -
          p.pin_bit_diameter * OVERCUTTING_BUFFER_FACTOR * g.tan_cut_angle)
        q.2 hsy_lt_ey hqL.1 hqL.2.1 (by linarith) (by linarith)
      linarith [hqL.2.2.2, hqF.2.2.1]
    · intro q hq
      obtain ⟨hqF, hqR⟩ := hq
      simp only [add_polygon, pin_trapezoid, CutShape.containsPt] at hqF hqR
      have hlt := edgeX_lt_edgeX
        (-(p.pin_bit_diameter * OVERCUTTING_BUFFER_FACTOR))
        (p.pin_thickness + p.pin_bit_diameter * OVERCUTTING_BUFFER_FACTOR)
        (p.width_tails + g.individual_width_of_tail_cut +
          g.smaller_width_tails / 2 -
          p.pin_bit_diameter * OVERCUTTING_BUFFER_FACTOR * g.tan_cut_angle)
        (p.width_tails + g.individual_width_of_tail_cut +
          p.width_tails / 2 +
          p.pin_bit_diameter * OVERCUTTING_BUFFER_FACTOR * g.tan_cut_angle)
        (p.width - g.smaller_width_tails / 2 +
          p.pin_bit_diameter * OVERCUTTING_BUFFER_FACTOR * g.tan_cut_angle)
        (p.width - p.width_tails / 2 -
          p.pin_bit_diameter * OVERCUTTING_BUFFER_FACTOR * g.tan_cut_angle)
        q.2 hsy_lt_ey hqF.1 hqF.2.1 (by nlinarith [hWsum])
        (by nlinarith [hWsum])
      linarith [hqF.2.2.2, hqR.2.2.1]

/-- Counterexample to C8 as stated: `pBad` is a validated single-tail
parameter set (its buffer offset `delta_x = 4.4` exceeds half the
inter-tail cut width 2), whose left half-tail pocket and full pocket both
contain the point (5, 27/5) — two adjacent cut regions overlap. -/
theorem C8_counterexample :
    calc_and_check_parameters pBad = .ok gBad ∧
    pBad.num_tails = 1 ∧
    (add_pin_cuts pBad gBad).1 =
      [add_polygon pBad
         (-HORIZONTAL_BUFFER,
          -(pBad.pin_bit_diameter * OVERCUTTING_BUFFER_FACTOR))
         (gBad.smaller_width_tails / 2 -
            pBad.pin_bit_diameter * OVERCUTTING_BUFFER_FACTOR *
              gBad.tan_cut_angle,
          -(pBad.pin_bit_diameter * OVERCUTTING_BUFFER_FACTOR))
         (pBad.width_tails / 2 +
            pBad.pin_bit_diameter * OVERCUTTING_BUFFER_FACTOR *
              gBad.tan_cut_angle,
          pBad.pin_thickness +
            pBad.pin_bit_diameter * OVERCUTTING_BUFFER_FACTOR)
         (-HORIZONTAL_BUFFER,
          pBad.pin_thickness +
            pBad.pin_bit_diameter * OVERCUTTING_BUFFER_FACTOR),
       add_polygon pBad
         (pBad.width - gBad.smaller_width_tails / 2 +
            pBad.pin_bit_diameter * OVERCUTTING_BUFFER_FACTOR *
              gBad.tan_cut_angle,
          -(pBad.pin_bit_diameter * OVERCUTTING_BUFFER_FACTOR))
         (pBad.width + HORIZONTAL_BUFFER,
          -(pBad.pin_bit_diameter * OVERCUTTING_BUFFER_FACTOR))
         (pBad.width + HORIZONTAL_BUFFER,
          pBad.pin_thickness +
            pBad.pin_bit_diameter * OVERCUTTING_BUFFER_FACTOR)
         (pBad.width - pBad.width_tails / 2 -
            pBad.pin_bit_diameter * OVERCUTTING_BUFFER_FACTOR *
              gBad.tan_cut_angle,
          pBad.pin_thickness +
            pBad.pin_bit_diameter * OVERCUTTING_BUFFER_FACTOR),
       pin_trapezoid pBad gBad
         (-(pBad.pin_bit_diameter * OVERCUTTING_BUFFER_FACTOR))
         (pBad.pin_thickness +
           pBad.pin_bit_diameter * OVERCUTTING_BUFFER_FACTOR)
         (pBad.pin_bit_diameter * OVERCUTTING_BUFFER_FACTOR *
           gBad.tan_cut_angle)
         (pBad.width_tails + gBad.individual_width_of_tail_cut)] ∧
    (add_polygon pBad
       (-HORIZONTAL_BUFFER,
        -(pBad.pin_bit_diameter * OVERCUTTING_BUFFER_FACTOR))
       (gBad.smaller_width_tails / 2 -
          pBad.pin_bit_diameter * OVERCUTTING_BUFFER_FACTOR *
            gBad.tan_cut_angle,
        -(pBad.pin_bit_diameter * OVERCUTTING_BUFFER_FACTOR))
       (pBad.width_tails / 2 +
          pBad.pin_bit_diameter * OVERCUTTING_BUFFER_FACTOR *
            gBad.tan_cut_angle,
        pBad.pin_thickness +
          pBad.pin_bit_diameter * OVERCUTTING_BUFFER_FACTOR)
       (-HORIZONTAL_BUFFER,
        pBad.pin_thickness +
          pBad.pin_bit_diameter *
            OVERCUTTING_BUFFER_FACTOR)).containsPt (5, 27 / 5) ∧
    (pin_trapezoid pBad gBad
       (-(pBad.pin_bit_diameter * OVERCUTTING_BUFFER_FACTOR))
       (pBad.pin_thickness +
         pBad.pin_bit_diameter * OVERCUTTING_BUFFER_FACTOR)
       (pBad.pin_bit_diameter * OVERCUTTING_BUFFER_FACTOR *
         gBad.tan_cut_angle)
       (pBad.width_tails +
         gBad.individual_width_of_tail_cut)).containsPt (5, 27 / 5) := by
  refine ⟨calc_pBad, rfl, ?_, ?_, ?_⟩
  · rw [add_pin_cuts_odd pBad gBad rfl]
    dsimp only
    rw [show pBad.num_tails.toNat = 1 from rfl, pin_cut_for_loop_one]
  · simp only [add_polygon, CutShape.containsPt]
    norm_num [pBad, gBad, OVERCUTTING_BUFFER_FACTOR, HORIZONTAL_BUFFER,
      edgeX]
  · simp only [pin_trapezoid, add_polygon, CutShape.containsPt]
    norm_num [pBad, gBad, OVERCUTTING_BUFFER_FACTOR, edgeX]

/-- Witness for C8 at `pOdd`, whose `delta_x` (1.1) is far below half the
inter-tail cut width (55). -/
theorem C8_witness :
    calc_and_check_parameters pOdd = .ok gOdd ∧
    pOdd.num_tails = 1 ∧
    2 * (pOdd.pin_bit_diameter * OVERCUTTING_BUFFER_FACTOR *
      gOdd.tan_cut_angle) < gOdd.individual_width_of_tail_cut ∧
    (add_pin_cuts pOdd gOdd).1.length = 3 ∧
    (add_tail_cuts pOdd gOdd 100).1.length = 2 := by
  have H := C8_single_tail_layout pOdd gOdd 100 calc_pOdd rfl
    (by norm_num [pOdd]) (by norm_num [pOdd]) (by norm_num [pOdd])
    (by norm_num [pOdd]) (by norm_num [pOdd]) (by norm_num [pOdd])
    (by norm_num [pOdd])
  refine ⟨calc_pOdd, rfl, ?_, ?_, ?_⟩
  · norm_num [pOdd, gOdd, OVERCUTTING_BUFFER_FACTOR]
  · rw [H.1]
    rfl
  · rw [H.2.1]
    rfl

/-- C7: with all other parameters fixed, the upper tail diameter is
strictly decreasing in the pin thickness (for a cut angle in (0, 90)),
strictly decreasing in the cut angle (for angles in (0, 90) and a
positive pin thickness), and strictly increasing in the dovetail bit
diameter. -/
theorem C7_upper_diameter_monotonicity :
    (∀ (p : JointParameters) (t1 t2 : ℝ),
      0 < p.cut_angle → p.cut_angle < 90 → t1 < t2 →
      calculate_upper_tail_diameter { p with pin_thickness := t2 } <
        calculate_upper_tail_diameter { p with pin_thickness := t1 }) ∧
    (∀ (p : JointParameters) (a1 a2 : ℝ),
      0 < a1 → a1 < a2 → a2 < 90 → 0 < p.pin_thickness →
      calculate_upper_tail_diameter { p with cut_angle := a2 } <
        calculate_upper_tail_diameter { p with cut_angle := a1 }) ∧
    (∀ (p : JointParameters) (d1 d2 : ℝ), d1 < d2 →
      calculate_upper_tail_diameter { p with tail_bit_diameter := d1 } <
        calculate_upper_tail_diameter { p with tail_bit_diameter := d2 }) := by
  refine ⟨?_, ?_, ?_⟩
  · intro p t1 t2 h0 h90 ht
    unfold calculate_upper_tail_diameter tan_cut_angle
    dsimp only
    have htan := tan_radians_pos h0 h90
    nlinarith [mul_lt_mul_of_pos_left ht htan]
  · intro p a1 a2 h1 h12 h290 hpt
    unfold calculate_upper_tail_diameter tan_cut_angle
    dsimp only
    have htan : Real.tan (radians a1) < Real.tan (radians a2) := by
      apply Real.tan_lt_tan_of_nonneg_of_lt_pi_div_two (radians_pos h1).le
        (radians_lt_pi_div_two h290)
      unfold radians
      linarith [mul_pos (sub_pos.mpr h12) Real.pi_pos]
    nlinarith [mul_lt_mul_of_pos_right htan hpt]
  · intro p d1 d2 hd
    unfold calculate_upper_tail_diameter tan_cut_angle
    dsimp only
    linarith

/-- Witness for C7 at the concrete scenario `pEven` with thicknesses 1
and 2, angles 30 and 45 degrees, and diameters 10 and 11. -/
theorem C7_witness :
    ((0 : ℝ) < pEven.cut_angle ∧ pEven.cut_angle < 90 ∧ (1 : ℝ) < 2 ∧
      calculate_upper_tail_diameter { pEven with pin_thickness := 2 } <
        calculate_upper_tail_diameter { pEven with pin_thickness := 1 }) ∧
    ((0 : ℝ) < 30 ∧ (30 : ℝ) < 45 ∧ (45 : ℝ) < 90 ∧
      0 < pEven.pin_thickness ∧
      calculate_upper_tail_diameter { pEven with cut_angle := 45 } <
        calculate_upper_tail_diameter { pEven with cut_angle := 30 }) ∧
    ((10 : ℝ) < 11 ∧
      calculate_upper_tail_diameter { pEven with tail_bit_diameter := 10 } <
        calculate_upper_tail_diameter { pEven with tail_bit_diameter := 11 }) :=
  ⟨⟨by norm_num [pEven], by norm_num [pEven], by norm_num,
    C7_upper_diameter_monotonicity.1 pEven 1 2 (by norm_num [pEven])
      (by norm_num [pEven]) (by norm_num)⟩,
   ⟨by norm_num, by norm_num, by norm_num, by norm_num [pEven],
    C7_upper_diameter_monotonicity.2.1 pEven 30 45 (by norm_num)
      (by norm_num) (by norm_num) (by norm_num [pEven])⟩,
   ⟨by norm_num,
    C7_upper_diameter_monotonicity.2.2 pEven 10 11 (by norm_num)⟩⟩

/-- Witness for C9 at `pEven` (one-or-more-tails half) and `pZero`
(zero-tails half). -/
theorem C9_witness :
    1 ≤ pEven.num_tails ∧
    calc_and_check_parameters pEven ≠ .zeroDivisionError ∧
    pZero.num_tails = 0 ∧
    calc_and_check_parameters pZero = .zeroDivisionError :=
  ⟨by decide,
   ((C9_division_safety pEven).1 (by decide)).2.2.2,
   rfl,
   (C9_division_safety pZero).2 rfl
     (by rw [upper_pZero]; norm_num)
     (by rw [smaller_pZero]; norm_num [pZero])
     (by norm_num [pZero])⟩
